import Mathlib

/-!
Shallow embedding of the EvalDocsLoader core in Lean 4, together with
theorems checking the repository specification against the code.

Embedded source files:
* `evaldocsloader/auto_tests.py` — the test-specification parser
  (`TestFile`, `SingleTest`, `SubTest`) and the result comparison
  (`SingleTest.compare_all`).
* `evaldocsloader/loader_fetch.py` — the recursive document-graph fetcher
  (`FetchDocsJob`), the link collector/rewriter (`_MarkdownLinkCollector`)
  and the document edit passes.

Modelling conventions:
* Python values flowing through the parsers (results of `json.loads` /
  `yaml.safe_load_all`) are modelled by the inductive `JValue`.  Numbers are
  carried as their literal decimal spelling (a `String`); the claims only
  ever compare syntactically distinct literals, for which Python float
  equality and literal equality agree.
* Python `dict`s are modelled as insertion-ordered association lists with
  unique keys; `dictGet`/`dictSet` mirror `dict.get` and `dict.__setitem__`
  / `dict.update` with a single key.
* Python exceptions are modelled by `PyErr`; a function that can raise
  returns `Except PyErr α`.  An exception escaping `TestFile.__init__`
  means no object is constructed, hence the parse result is all-or-nothing
  by construction, exactly as in Python.
* Python truthiness (`if not x`) is modelled by `truthy`.
* External libraries (json, yaml, mistletoe, the GitHub client) are taken
  at their interface: parsed values, parsed markdown ASTs and repository
  contents are part of the model's input.
-/

namespace EvalDocs

/-! ## Python values -/

mutual

inductive JValue where
  | null
  | bool (b : Bool)
  | num (s : String)
  | str (s : String)
  | arr (xs : JArr)
  | obj (kvs : JObj)
  deriving Repr

inductive JArr where
  | nil
  | cons (v : JValue) (tl : JArr)
  deriving Repr

inductive JObj where
  | nil
  | cons (k : String) (v : JValue) (tl : JObj)
  deriving Repr

end

mutual

def JValue.beq : JValue → JValue → Bool
  | .null, .null => true
  | .bool a, .bool b => a = b
  | .num a, .num b => a = b
  | .str a, .str b => a = b
  | .arr a, .arr b => JArr.beq a b
  | .obj a, .obj b => JObj.beq a b
  | _, _ => false

def JArr.beq : JArr → JArr → Bool
  | .nil, .nil => true
  | .cons a as, .cons b bs => JValue.beq a b && JArr.beq as bs
  | _, _ => false

def JObj.beq : JObj → JObj → Bool
  | .nil, .nil => true
  | .cons k a as, .cons k2 b bs => k = k2 && JValue.beq a b && JObj.beq as bs
  | _, _ => false

end

mutual

theorem jvalue_beq_iff : ∀ a b : JValue, JValue.beq a b = true ↔ a = b
  | .null, b => by cases b <;> simp [JValue.beq]
  | .bool a, b => by cases b <;> simp [JValue.beq]
  | .num a, b => by cases b <;> simp [JValue.beq]
  | .str a, b => by cases b <;> simp [JValue.beq]
  | .arr a, b => by cases b <;> simp [JValue.beq, jarr_beq_iff a _]
  | .obj a, b => by cases b <;> simp [JValue.beq, jobj_beq_iff a _]

theorem jarr_beq_iff : ∀ a b : JArr, JArr.beq a b = true ↔ a = b
  | .nil, b => by cases b <;> simp [JArr.beq]
  | .cons a as, b => by
      cases b <;> simp [JArr.beq, jvalue_beq_iff a _, jarr_beq_iff as _]

theorem jobj_beq_iff : ∀ a b : JObj, JObj.beq a b = true ↔ a = b
  | .nil, b => by cases b <;> simp [JObj.beq]
  | .cons k a as, b => by
      cases b <;> simp [JObj.beq, jvalue_beq_iff a _, jobj_beq_iff as _, and_assoc]

end

instance : DecidableEq JValue := fun a b =>
  decidable_of_iff (JValue.beq a b = true) (jvalue_beq_iff a b)

def JArr.toList : JArr → List JValue
  | .nil => []
  | .cons v tl => v :: JArr.toList tl

def JObj.toList : JObj → List (String × JValue)
  | .nil => []
  | .cons k v tl => (k, v) :: JObj.toList tl

def JArr.ofList : List JValue → JArr
  | [] => .nil
  | v :: tl => .cons v (JArr.ofList tl)

def JObj.ofList : List (String × JValue) → JObj
  | [] => .nil
  | (k, v) :: tl => .cons k v (JObj.ofList tl)

/-- Build a JSON array value from a Lean list (notation helper). -/
def jarr (xs : List JValue) : JValue := .arr (JArr.ofList xs)

/-- Build a JSON object value from a Lean association list (notation helper). -/
def jobj (kvs : List (String × JValue)) : JValue := .obj (JObj.ofList kvs)

theorem jarr_toList_ofList (xs : List JValue) : (JArr.ofList xs).toList = xs := by
  induction xs with
  | nil => rfl
  | cons v tl ih => simp [JArr.ofList, JArr.toList, ih]

theorem jobj_toList_ofList (kvs : List (String × JValue)) : (JObj.ofList kvs).toList = kvs := by
  induction kvs with
  | nil => rfl
  | cons kv tl ih => cases kv; simp [JObj.ofList, JObj.toList, ih]

/-! ## Python dict / exception / truthiness primitives -/

/-- Python `d.get(k)`: the value stored at key `k`, if any. -/
def dictGet (d : List (String × JValue)) (k : String) : Option JValue :=
  (d.find? (fun kv => kv.1 = k)).map (fun kv => kv.2)

/-- Python `k in d`. -/
def dictContains (d : List (String × JValue)) (k : String) : Bool :=
  d.any (fun kv => kv.1 = k)

/-- Python `d[k] = v` (also `d.update` with a single key): replace the value
at an existing key in place, otherwise append the new binding. -/
def dictSet (d : List (String × JValue)) (k : String) (v : JValue) :
    List (String × JValue) :=
  if dictContains d k then d.map (fun kv => if kv.1 = k then (k, v) else kv)
  else d ++ [(k, v)]

/-- Python exceptions relevant to the embedded code. -/
inductive PyErr where
  | keyError (k : String)
  | typeError (m : String)
  | attributeError (m : String)
  | indexError
  | exc (m : String)
  deriving Repr, DecidableEq

/-- Python truthiness (`bool(v)`).  For numbers the code never branches on
truthiness of a numeric value, so the literal forms 0 and 0.0 standing for
zero are enough. -/
def truthy : JValue → Bool
  | .null => false
  | .bool b => b
  | .num s => ¬(s = "0" ∨ s = "0.0")
  | .str s => s ≠ ""
  | .arr .nil => false
  | .arr _ => true
  | .obj .nil => false
  | .obj _ => true

/-- Python `v[k]` on a value: `KeyError` for a missing key of a dict,
`TypeError` when `v` is not subscriptable by a string. -/
def pyIndex (v : JValue) (k : String) : Except PyErr JValue :=
  match v with
  | .obj kvs =>
      match dictGet kvs.toList k with
      | some x => .ok x
      | none => .error (.keyError k)
  | _ => .error (.typeError "value is not subscriptable by a string key")

/-- Python attribute-style dict access (`v.get`, `v.update`): requires an
actual dict, otherwise `AttributeError`. -/
def asObj (v : JValue) : Except PyErr (List (String × JValue)) :=
  match v with
  | .obj kvs => .ok kvs.toList
  | _ => .error (.attributeError "object has no dict attributes")

/-- Python `for x in v`: lists iterate their elements, strings their
characters, dicts their keys; other values raise `TypeError`. -/
def pyIter (v : JValue) : Except PyErr (List JValue) :=
  match v with
  | .arr xs => .ok xs.toList
  | .str s => .ok (s.data.map (fun c => .str (String.singleton c)))
  | .obj kvs => .ok (kvs.toList.map (fun kv => .str kv.1))
  | _ => .error (.typeError "value is not iterable")

mutual

/-- Python `repr`.  String escaping inside quotes is not reproduced; the
claims never take the repr of a string containing a quote. -/
def pyRepr : JValue → String
  | .null => "None"
  | .bool true => "True"
  | .bool false => "False"
  | .num s => s
  | .str s => "\x27" ++ s ++ "\x27"
  | .arr xs => "[" ++ pyReprArr xs ++ "]"
  | .obj kvs => "\x7b" ++ pyReprObj kvs ++ "\x7d"

def pyReprArr : JArr → String
  | .nil => ""
  | .cons v .nil => pyRepr v
  | .cons v tl => pyRepr v ++ ", " ++ pyReprArr tl

def pyReprObj : JObj → String
  | .nil => ""
  | .cons k v .nil => "\x27" ++ k ++ "\x27: " ++ pyRepr v
  | .cons k v tl => "\x27" ++ k ++ "\x27: " ++ pyRepr v ++ ", " ++ pyReprObj tl

end

/-- Python `str(v)` (as used by f-string interpolation): like `repr` except
that strings are rendered without quotes. -/
def pyStr : JValue → String
  | .str s => s
  | v => pyRepr v

/-- Sequential effectful map over a list, aborting at the first exception —
the embedding of a Python `for` loop whose body may raise. -/
def exMapM {α β : Type} (f : α → Except PyErr β) : List α → Except PyErr (List β)
  | [] => .ok []
  | x :: xs =>
      match f x with
      | .error e => .error e
      | .ok y =>
          match exMapM f xs with
          | .error e => .error e
          | .ok ys => .ok (y :: ys)

theorem exMapM_ok_length {α β : Type} {f : α → Except PyErr β} :
    ∀ {xs : List α} {ys : List β}, exMapM f xs = .ok ys → ys.length = xs.length := by
  intro xs
  induction xs with
  | nil => intro ys h; cases h; rfl
  | cons x xs ih =>
      intro ys h
      simp only [exMapM] at h
      cases hx : f x with
      | error e => rw [hx] at h; cases h
      | ok y =>
          rw [hx] at h
          cases hxs : exMapM f xs with
          | error e => rw [hxs] at h; cases h
          | ok ys2 => rw [hxs] at h; cases h; simp [ih hxs]

theorem exMapM_ok_forall {α β : Type} {f : α → Except PyErr β} :
    ∀ {xs : List α} {ys : List β}, exMapM f xs = .ok ys →
      ∀ x ∈ xs, ∃ y, f x = .ok y := by
  intro xs
  induction xs with
  | nil => intro ys _ x hx; cases hx
  | cons x xs ih =>
      intro ys h z hz
      simp only [exMapM] at h
      cases hx : f x with
      | error e => rw [hx] at h; cases h
      | ok y =>
          rw [hx] at h
          cases hxs : exMapM f xs with
          | error e => rw [hxs] at h; cases h
          | ok ys2 =>
              rcases List.mem_cons.mp hz with hz | hz
              · exact ⟨y, hz ▸ hx⟩
              · exact ih hxs z hz

theorem exMapM_ok_mem {α β : Type} {f : α → Except PyErr β} :
    ∀ {xs : List α} {ys : List β}, exMapM f xs = .ok ys →
      ∀ y ∈ ys, ∃ x ∈ xs, f x = .ok y := by
  intro xs
  induction xs with
  | nil => intro ys h y hy; cases h; cases hy
  | cons x xs ih =>
      intro ys h y hy
      simp only [exMapM] at h
      cases hx : f x with
      | error e => rw [hx] at h; cases h
      | ok y0 =>
          rw [hx] at h
          cases hxs : exMapM f xs with
          | error e => rw [hxs] at h; cases h
          | ok ys2 =>
              simp only [hxs] at h
              cases h
              rcases List.mem_cons.mp hy with hy | hy
              · exact ⟨x, List.mem_cons_self x xs, hy ▸ hx⟩
              · rcases ih hxs y hy with ⟨x2, hx2, hfx2⟩
                exact ⟨x2, List.mem_cons_of_mem x hx2, hfx2⟩

/-! ## auto_tests.py — the test-specification model

Embedding of `TestFile`, `SingleTest` and `SubTest`.  `json.loads` and
`yaml.safe_load_all` are external parsers; the embedding receives their
results (`JValue` / a list of `JValue` documents). -/

/-- The `SubTest` dataclass.  `is_correct` holds whatever
`expected_result.get("is_correct")` returned (possibly `null`), exactly as
in the source. -/
structure SubTest where
  desc : JValue
  response : JValue
  is_correct : JValue
  expected_result : List (String × JValue)
  deriving Repr, DecidableEq

/-- The `SingleTest` class data. -/
structure Test where
  answer : JValue
  params : JValue
  desc : JValue
  sub_tests : List SubTest
  deriving Repr, DecidableEq

/-- One element of `TestFile.groups`: in the source a dict
`{"title": ..., "tests": ...}`. -/
structure Group where
  title : JValue
  tests : List Test
  deriving Repr, DecidableEq

/-- Body of the `for sub_test in test_dict["sub_tests"]` loop in
`SingleTest.__init__` (auto_tests.py lines 65-75): build one `SubTest` from
one entry of the `sub_tests` sequence. -/
def subTestOfEntry (entry : JValue) : Except PyErr SubTest :=
  match asObj entry with
  | .error e => .error e
  | .ok d =>
      let er := (dictGet d "expected_result").getD .null
      if truthy er = false then
        .error (.exc "No expected result given for test")
      else
        match asObj er with
        | .error e => .error e
        | .ok erd =>
            .ok { desc := (dictGet d "description").getD (.str "")
                  response := (dictGet d "response").getD (.str "")
                  is_correct := (dictGet erd "is_correct").getD .null
                  expected_result := erd }

/-- `SingleTest.__init__` (auto_tests.py lines 57-86) on an
already-dict-shaped `test_dict`. -/
def mkSingleTest (d : List (String × JValue)) : Except PyErr Test :=
  let answer := (dictGet d "answer").getD (.str "")
  let params := (dictGet d "params").getD (jobj [])
  let desc := (dictGet d "description").getD (.str "")
  if dictContains d "sub_tests" then
    match pyIter ((dictGet d "sub_tests").getD .null) with
    | .error e => .error e
    | .ok entries =>
        match exMapM subTestOfEntry entries with
        | .error e => .error e
        | .ok subs => .ok { answer, params, desc, sub_tests := subs }
  else
    let er := (dictGet d "expected_result").getD .null
    if truthy er = false then
      .error (.exc "No expected result given for test")
    else
      match asObj er with
      | .error e => .error e
      | .ok erd =>
          .ok { answer, params, desc,
                sub_tests := [{ desc := .str ""
                                response := (dictGet d "response").getD (.str "")
                                is_correct := (dictGet erd "is_correct").getD .null
                                expected_result := erd }] }

/-- Body of the `for test in response_area["tests"]` loop in the JSON branch
of `TestFile.__init__` (auto_tests.py lines 26-29): inject the response
area's `answer` and `params` into the test dict, then build a `SingleTest`. -/
def processJsonTest (answer params : JValue) (tv : JValue) : Except PyErr Test :=
  match asObj tv with
  | .error e => .error e
  | .ok td => mkSingleTest (dictSet (dictSet td "answer" answer) "params" params)

/-- The tests of one response area in the JSON branch. -/
def processRATests (answer params : JValue) (tests : List JValue) :
    Except PyErr (List Test) :=
  exMapM (processJsonTest answer params) tests

/-- One response area in the JSON branch (auto_tests.py lines 23-29):
read `params`, `answer` and `tests` and process each test. -/
def processRA (ra : JValue) : Except PyErr (List Test) :=
  match pyIndex ra "params" with
  | .error e => .error e
  | .ok params =>
      match pyIndex ra "answer" with
      | .error e => .error e
      | .ok answer =>
          match pyIndex ra "tests" with
          | .error e => .error e
          | .ok testsv =>
              match pyIter testsv with
              | .error e => .error e
              | .ok tests => processRATests answer params tests

/-- One part in the JSON branch (auto_tests.py lines 22-23). -/
def processPart (part : JValue) : Except PyErr (List Test) :=
  match pyIndex part "responseAreas" with
  | .error e => .error e
  | .ok rasv =>
      match pyIter rasv with
      | .error e => .error e
      | .ok ras =>
          match exMapM processRA ras with
          | .error e => .error e
          | .ok tss => .ok tss.flatten

/-- One question in the JSON branch (auto_tests.py lines 19-30). -/
def processQuestion (q : JValue) : Except PyErr Group :=
  match pyIndex q "title" with
  | .error e => .error e
  | .ok title =>
      match pyIndex q "parts" with
      | .error e => .error e
      | .ok partsv =>
          match pyIter partsv with
          | .error e => .error e
          | .ok parts =>
              match exMapM processPart parts with
              | .error e => .error e
              | .ok tss => .ok { title, tests := tss.flatten }

/-- The JSON branch of `TestFile.__init__` applied to the value returned by
`json.loads` (before the `except KeyError` rewrap). -/
def parseJsonTests (v : JValue) : Except PyErr (List Group) :=
  match pyIter v with
  | .error e => .error e
  | .ok qs => exMapM processQuestion qs

/-- Body of the `for test in test_group.get("tests", [])` loop of the YAML
branch (auto_tests.py lines 43-48): default a missing/None `params` to an
empty dict, then build a `SingleTest`. -/
def yamlProcessTest (tv : JValue) : Except PyErr Test :=
  match asObj tv with
  | .error e => .error e
  | .ok td =>
      match (dictGet td "params").getD .null with
      | .null => mkSingleTest (dictSet td "params" (jobj []))
      | _ => mkSingleTest td

/-- One YAML document (auto_tests.py lines 40-50). -/
def processYamlDoc (doc : JValue) : Except PyErr Group :=
  match asObj doc with
  | .error e => .error e
  | .ok dd =>
      let title := (dictGet dd "title").getD (.str "")
      match pyIter ((dictGet dd "tests").getD (jarr [])) with
      | .error e => .error e
      | .ok tests =>
          match exMapM yamlProcessTest tests with
          | .error e => .error e
          | .ok out => .ok { title, tests := out }

/-- The YAML branch of `TestFile.__init__` applied to the documents returned
by `yaml.safe_load_all`. -/
def parseYamlTests (docs : List JValue) : Except PyErr (List Group) :=
  exMapM processYamlDoc docs

/-- The content of a test-specification file, abstracted as what the two
external text parsers would produce for it: `json.loads` either fails
(`JSONDecodeError`, carried as a message) or yields a value, and
`yaml.safe_load_all` either fails (`YAMLError`) or yields a document list. -/
structure SourceDoc where
  jsonParsed : Except String JValue
  yamlParsed : Except String (List JValue)

/-- Python `str.split` with a one-character separator, on character lists:
always returns at least one (possibly empty) group. -/
def splitOnChar (sep : Char) : List Char → List (List Char)
  | [] => [[]]
  | c :: cs =>
      match splitOnChar sep cs with
      | [] => [[]]
      | g :: gs => if c = sep then [] :: g :: gs else (c :: g) :: gs

/-- Python `file_name.split(sep)` for a one-character separator. -/
def pySplitChar (s : String) (sep : Char) : List String :=
  (splitOnChar sep s.data).map (fun l => String.mk l)

/-- `TestFile.__init__` (auto_tests.py lines 10-54): dispatch on the
filename extension (`file_name.split(".")[-1]`); in the JSON branch
`KeyError` and `JSONDecodeError` are rewrapped, in the YAML branch
`YAMLError` is rewrapped; all other exceptions propagate unchanged. -/
def testFileParse (content : SourceDoc) (file_name : String) :
    Except PyErr (List Group) :=
  let extension := (pySplitChar file_name '.').getLastD ""
  if extension = "json" then
    match content.jsonParsed with
    | .error e => .error (.exc ("Error parsing JSON: \"" ++ e ++ "\""))
    | .ok v =>
        match parseJsonTests v with
        | .error (.keyError k) =>
            .error (.exc ("The key \"" ++ k ++ "\" doesn\x27t exist, or is in the wrong place."))
        | r => r
  else if extension = "yaml" then
    match content.yamlParsed with
    | .error e => .error (.exc ("Error parsing YAML: " ++ e))
    | .ok docs => parseYamlTests docs
  else
    .error (.exc ("\"" ++ extension ++ "\" files are not supported as a test format."))

/-! ### SingleTest.compare_all -/

/-- The `for key, value in ... expected_result.items()` loop of
`compare_all` (auto_tests.py lines 106-115).  Returns the first failure
message, if any.  Note `eval_result.get(key)` yields Python `None` both for
a missing key and for a key stored with value `None`. -/
def checkFields (t : Test) : List (String × JValue) → List (String × JValue) → Option String
  | [], _ => none
  | (k, v) :: rest, r =>
      let actual := (dictGet r k).getD .null
      if actual = .null then
        some ("No value returned for \"" ++ k ++ "\"")
      else if actual ≠ v then
        some ("expected " ++ k ++ " = \"" ++ pyStr v ++ "\", got " ++ k ++ " = \""
          ++ pyStr actual ++ "\"\nTest description: " ++ pyStr t.desc)
      else checkFields t rest r

/-- One iteration of the `compare_all` loop (auto_tests.py lines 92-115):
check `is_correct`, then every field of `expected_result`.  The source's
`if self.sub_tests[i].expected_result != None` is always true (the field is
a dict) and is therefore not reflected as a branch. -/
def compareOne (t : Test) (st : SubTest) (r : List (String × JValue)) :
    Except PyErr (Option String) :=
  match dictGet r "is_correct" with
  | none => .error (.keyError "is_correct")
  | some ec =>
      if ec ≠ st.is_correct then
        match dictGet r "feedback" with
        | none => .error (.keyError "feedback")
        | some fb =>
            .ok (some ("response \"" ++ pyStr st.response ++ "\" with answer \""
              ++ pyStr t.answer ++ "\" was " ++ (if truthy ec then "" else "in")
              ++ "correct: " ++ pyStr fb ++ "\nTest description: " ++ pyStr st.desc))
      else .ok (checkFields t st.expected_result r)

/-- `SingleTest.compare_all` (auto_tests.py lines 91-117): `i` is the
`enumerate` index into `self.sub_tests`. -/
def compareAllAux (t : Test) (i : Nat) : List (List (String × JValue)) →
    Except PyErr (Bool × String)
  | [] => .ok (true, "")
  | r :: rest =>
      match t.sub_tests[i]? with
      | none => .error .indexError
      | some st =>
          match compareOne t st r with
          | .error e => .error e
          | .ok (some msg) => .ok (false, msg)
          | .ok none => compareAllAux t (i + 1) rest

/-- `SingleTest.compare_all` entry point. -/
def compareAll (t : Test) (rs : List (List (String × JValue))) :
    Except PyErr (Bool × String) :=
  compareAllAux t 0 rs

/-! ### Basic facts about the dict primitives and the parser -/

theorem dictGet_nil (k : String) : dictGet [] k = none := rfl

theorem dictGet_cons (kv : String × JValue) (d : List (String × JValue)) (k : String) :
    dictGet (kv :: d) k = if kv.1 = k then some kv.2 else dictGet d k := by
  by_cases hk : kv.1 = k <;> simp [dictGet, List.find?_cons, hk]

theorem dictContains_cons (kv : String × JValue) (d : List (String × JValue)) (k : String) :
    dictContains (kv :: d) k = (decide (kv.1 = k) || dictContains d k) := by
  simp [dictContains, List.any_cons]

theorem dictGet_map_set_self (d : List (String × JValue)) (k : String) (v : JValue)
    (hc : dictContains d k = true) :
    dictGet (d.map (fun kv => if kv.1 = k then (k, v) else kv)) k = some v := by
  induction d with
  | nil => simp [dictContains] at hc
  | cons kv d ih =>
      by_cases hk : kv.1 = k
      · simp [hk, dictGet_cons]
      · have hc2 : dictContains d k = true := by
          simpa [dictContains_cons, hk] using hc
        simp [hk, dictGet_cons, ih hc2]

theorem dictGet_map_set_ne (d : List (String × JValue)) {k k2 : String} (v : JValue)
    (h : k2 ≠ k) :
    dictGet (d.map (fun kv => if kv.1 = k then (k, v) else kv)) k2 = dictGet d k2 := by
  induction d with
  | nil => rfl
  | cons kv d ih =>
      by_cases hk : kv.1 = k
      · have h1 : kv.1 ≠ k2 := by rw [hk]; exact Ne.symm h
        simp [hk, dictGet_cons, Ne.symm h, h1, ih]
      · by_cases hk2 : kv.1 = k2 <;> simp [hk, hk2, h, dictGet_cons, ih]

theorem dictContains_map_set_ne (d : List (String × JValue)) {k k2 : String} (v : JValue)
    (h : k2 ≠ k) :
    dictContains (d.map (fun kv => if kv.1 = k then (k, v) else kv)) k2
      = dictContains d k2 := by
  induction d with
  | nil => rfl
  | cons kv d ih =>
      by_cases hk : kv.1 = k
      · have h1 : kv.1 ≠ k2 := by rw [hk]; exact Ne.symm h
        simp [List.map_cons, dictContains_cons, hk, h1, Ne.symm h, ih]
      · simp [List.map_cons, dictContains_cons, hk, ih]

theorem dictGet_append_not_contains (d : List (String × JValue)) (k : String) (v : JValue)
    (hc : dictContains d k = false) : dictGet (d ++ [(k, v)]) k = some v := by
  induction d with
  | nil => simp [dictGet_cons]
  | cons kv d ih =>
      have h1 : ¬(kv.1 = k) ∧ dictContains d k = false := by
        constructor
        · intro he; simp [dictContains_cons, he] at hc
        · cases h2 : dictContains d k
          · rfl
          · simp [dictContains_cons, h2] at hc
      simp [dictGet_cons, h1.1, ih h1.2]

theorem dictGet_append_ne (d : List (String × JValue)) {k k2 : String} (v : JValue)
    (h : k2 ≠ k) : dictGet (d ++ [(k, v)]) k2 = dictGet d k2 := by
  induction d with
  | nil => simp [dictGet_cons, Ne.symm h, dictGet_nil]
  | cons kv d ih =>
      by_cases hk2 : kv.1 = k2 <;> simp [dictGet_cons, hk2, ih]

theorem dictContains_append_ne (d : List (String × JValue)) {k k2 : String} (v : JValue)
    (h : k2 ≠ k) : dictContains (d ++ [(k, v)]) k2 = dictContains d k2 := by
  induction d with
  | nil => simp [dictContains_cons, dictContains, Ne.symm h]
  | cons kv d ih =>
      simp only [List.cons_append, dictContains_cons, ih]

theorem dictGet_dictSet_self (d : List (String × JValue)) (k : String) (v : JValue) :
    dictGet (dictSet d k v) k = some v := by
  unfold dictSet
  cases hc : dictContains d k
  · simp only [Bool.false_eq_true, if_false]
    exact dictGet_append_not_contains d k v hc
  · simp only [if_true]
    exact dictGet_map_set_self d k v hc

theorem dictGet_dictSet_ne (d : List (String × JValue)) {k k2 : String} (v : JValue)
    (h : k2 ≠ k) : dictGet (dictSet d k v) k2 = dictGet d k2 := by
  unfold dictSet
  cases hc : dictContains d k
  · simp only [Bool.false_eq_true, if_false]
    exact dictGet_append_ne d v h
  · simp only [if_true]
    exact dictGet_map_set_ne d v h

theorem dictContains_dictSet_ne (d : List (String × JValue)) {k k2 : String} (v : JValue)
    (h : k2 ≠ k) : dictContains (dictSet d k v) k2 = dictContains d k2 := by
  unfold dictSet
  cases hc : dictContains d k
  · simp only [Bool.false_eq_true, if_false]
    exact dictContains_append_ne d v h
  · simp only [if_true]
    exact dictContains_map_set_ne d v h

theorem truthy_asObj_nonempty {er : JValue} {erd : List (String × JValue)}
    (ht : truthy er = true) (ha : asObj er = .ok erd) : erd ≠ [] := by
  cases er <;> simp [asObj] at ha
  rename_i kvs
  cases kvs with
  | nil => simp [truthy] at ht
  | cons k v tl =>
      intro he
      rw [← ha] at he
      simp [JObj.toList] at he

theorem subTestOfEntry_er_nonempty {e : JValue} {st : SubTest}
    (h : subTestOfEntry e = .ok st) : st.expected_result ≠ [] := by
  unfold subTestOfEntry at h
  cases ha : asObj e with
  | error er => rw [ha] at h; cases h
  | ok d =>
      rw [ha] at h
      by_cases htr : truthy ((dictGet d "expected_result").getD .null) = false
      · simp [htr] at h
      · have htr2 : truthy ((dictGet d "expected_result").getD .null) = true := by
          cases hx : truthy ((dictGet d "expected_result").getD .null)
          · exact absurd hx htr
          · rfl
        simp only [htr2, Bool.true_eq_false, if_false] at h
        cases hao : asObj ((dictGet d "expected_result").getD .null) with
        | error e2 => rw [hao] at h; cases h
        | ok erd =>
            rw [hao] at h
            cases h
            exact truthy_asObj_nonempty htr2 hao

theorem mkSingleTest_answer {d : List (String × JValue)} {t : Test}
    (h : mkSingleTest d = .ok t) : t.answer = (dictGet d "answer").getD (.str "") := by
  simp only [mkSingleTest] at h
  split at h
  · split at h
    · cases h
    · split at h
      · cases h
      · cases h; rfl
  · split at h
    · cases h
    · split at h
      · cases h
      · cases h; rfl

theorem mkSingleTest_params {d : List (String × JValue)} {t : Test}
    (h : mkSingleTest d = .ok t) : t.params = (dictGet d "params").getD (jobj []) := by
  simp only [mkSingleTest] at h
  split at h
  · split at h
    · cases h
    · split at h
      · cases h
      · cases h; rfl
  · split at h
    · cases h
    · split at h
      · cases h
      · cases h; rfl

theorem mkSingleTest_no_sub_tests {d : List (String × JValue)} {t : Test}
    (hc : dictContains d "sub_tests" = false) (h : mkSingleTest d = .ok t) :
    t.sub_tests.length = 1 ∧
      t.sub_tests.map SubTest.response = [(dictGet d "response").getD (.str "")] := by
  simp only [mkSingleTest, hc, Bool.false_eq_true, if_false] at h
  split at h
  · cases h
  · split at h
    · cases h
    · cases h; exact ⟨rfl, rfl⟩

theorem mkSingleTest_sub_tests_length {d : List (String × JValue)} {t : Test}
    {entries : List JValue} (hc : dictContains d "sub_tests" = true)
    (hi : pyIter ((dictGet d "sub_tests").getD .null) = .ok entries)
    (h : mkSingleTest d = .ok t) : t.sub_tests.length = entries.length := by
  simp only [mkSingleTest, hc, if_true] at h
  simp only [hi] at h
  cases hm : exMapM subTestOfEntry entries with
  | error e => simp [hm] at h
  | ok subs => simp only [hm] at h; cases h; exact exMapM_ok_length hm

theorem mkSingleTest_er_nonempty {d : List (String × JValue)} {t : Test}
    (h : mkSingleTest d = .ok t) : ∀ st ∈ t.sub_tests, st.expected_result ≠ [] := by
  simp only [mkSingleTest] at h
  cases hc : dictContains d "sub_tests" with
  | true =>
      simp only [hc, if_true] at h
      cases hi : pyIter ((dictGet d "sub_tests").getD .null) with
      | error e => simp [hi] at h
      | ok entries =>
          simp only [hi] at h
          cases hm : exMapM subTestOfEntry entries with
          | error e => simp [hm] at h
          | ok subs =>
              simp only [hm] at h
              cases h
              intro st hst
              obtain ⟨e, _, he⟩ := exMapM_ok_mem hm st hst
              exact subTestOfEntry_er_nonempty he
  | false =>
      simp only [hc, Bool.false_eq_true, if_false] at h
      by_cases htr : truthy ((dictGet d "expected_result").getD .null) = false
      · simp [htr] at h
      · have htr2 : truthy ((dictGet d "expected_result").getD .null) = true := by
          cases hx : truthy ((dictGet d "expected_result").getD .null)
          · exact absurd hx htr
          · rfl
        simp only [htr2, Bool.true_eq_false, if_false] at h
        cases hao : asObj ((dictGet d "expected_result").getD .null) with
        | error e2 => simp [hao] at h
        | ok erd =>
            simp only [hao] at h
            cases h
            intro st hst
            rcases List.mem_singleton.mp hst with rfl
            exact truthy_asObj_nonempty htr2 hao

theorem processJsonTest_from_mk {a p tv : JValue} {t : Test}
    (h : processJsonTest a p tv = .ok t) : ∃ d, mkSingleTest d = .ok t := by
  unfold processJsonTest at h
  split at h
  · cases h
  · exact ⟨_, h⟩

theorem yamlProcessTest_from_mk {tv : JValue} {t : Test}
    (h : yamlProcessTest tv = .ok t) : ∃ d, mkSingleTest d = .ok t := by
  unfold yamlProcessTest at h
  split at h
  · cases h
  · split at h
    · exact ⟨_, h⟩
    · exact ⟨_, h⟩

theorem processRA_tests {ra : JValue} {ts : List Test} (h : processRA ra = .ok ts) :
    ∀ t ∈ ts, ∃ d, mkSingleTest d = .ok t := by
  unfold processRA at h
  split at h
  · cases h
  · split at h
    · cases h
    · split at h
      · cases h
      · split at h
        · cases h
        · intro t ht
          unfold processRATests at h
          obtain ⟨tv, _, htv⟩ := exMapM_ok_mem h t ht
          exact processJsonTest_from_mk htv

theorem processPart_tests {part : JValue} {ts : List Test} (h : processPart part = .ok ts) :
    ∀ t ∈ ts, ∃ d, mkSingleTest d = .ok t := by
  unfold processPart at h
  split at h
  · cases h
  · split at h
    · cases h
    · split at h
      · cases h
      · rename_i tss hm
        cases h
        intro t ht
        obtain ⟨ts2, hts2, ht2⟩ := List.mem_flatten.mp ht
        obtain ⟨ra, _, hra⟩ := exMapM_ok_mem hm ts2 hts2
        exact processRA_tests hra t ht2

theorem processQuestion_tests {q : JValue} {g : Group} (h : processQuestion q = .ok g) :
    ∀ t ∈ g.tests, ∃ d, mkSingleTest d = .ok t := by
  unfold processQuestion at h
  split at h
  · cases h
  · split at h
    · cases h
    · split at h
      · cases h
      · split at h
        · cases h
        · rename_i tss hm
          cases h
          intro t ht
          obtain ⟨ts2, hts2, ht2⟩ := List.mem_flatten.mp ht
          obtain ⟨part, _, hpart⟩ := exMapM_ok_mem hm ts2 hts2
          exact processPart_tests hpart t ht2

theorem parseJsonTests_from_mk {v : JValue} {gs : List Group}
    (h : parseJsonTests v = .ok gs) :
    ∀ g ∈ gs, ∀ t ∈ g.tests, ∃ d, mkSingleTest d = .ok t := by
  intro g hg t ht
  unfold parseJsonTests at h
  split at h
  · cases h
  · obtain ⟨q, _, hq⟩ := exMapM_ok_mem h g hg
    exact processQuestion_tests hq t ht

theorem processYamlDoc_tests {doc : JValue} {g : Group} (h : processYamlDoc doc = .ok g) :
    ∀ t ∈ g.tests, ∃ d, mkSingleTest d = .ok t := by
  unfold processYamlDoc at h
  split at h
  · cases h
  · split at h
    · cases h
    · split at h
      · cases h
      · rename_i out hm
        cases h
        intro t ht
        obtain ⟨tv, _, htv⟩ := exMapM_ok_mem hm t ht
        exact yamlProcessTest_from_mk htv

theorem parseYamlTests_from_mk {docs : List JValue} {gs : List Group}
    (h : parseYamlTests docs = .ok gs) :
    ∀ g ∈ gs, ∀ t ∈ g.tests, ∃ d, mkSingleTest d = .ok t := by
  intro g hg t ht
  unfold parseYamlTests at h
  obtain ⟨doc, _, hdoc⟩ := exMapM_ok_mem h g hg
  exact processYamlDoc_tests hdoc t ht

theorem asObj_jobj (kvs : List (String × JValue)) : asObj (jobj kvs) = .ok kvs := by
  simp [asObj, jobj, jobj_toList_ofList]

theorem pyIter_jarr (xs : List JValue) : pyIter (jarr xs) = .ok xs := by
  simp [pyIter, jarr, jarr_toList_ofList]

theorem pyIndex_jobj (kvs : List (String × JValue)) (k : String) :
    pyIndex (jobj kvs) k =
      (match dictGet kvs k with
        | some x => .ok x
        | none => .error (.keyError k)) := by
  simp [pyIndex, jobj, jobj_toList_ofList]

theorem dictContains_of_get {d : List (String × JValue)} {k : String} {v : JValue}
    (h : dictGet d k = some v) : dictContains d k = true := by
  unfold dictGet at h
  cases hf : List.find? (fun kv => decide (kv.1 = k)) d with
  | none => rw [hf] at h; cases h
  | some kv =>
      have hm := List.mem_of_find?_eq_some hf
      have hp := List.find?_some hf
      simp only [decide_eq_true_eq] at hp
      unfold dictContains
      simp only [List.any_eq_true, decide_eq_true_eq]
      exact ⟨kv, hm, hp⟩

theorem dictGet_of_contains {d : List (String × JValue)} {k : String}
    (h : dictContains d k = true) : ∃ v, dictGet d k = some v := by
  unfold dictContains at h
  simp only [List.any_eq_true, decide_eq_true_eq] at h
  obtain ⟨kv, hm, hp⟩ := h
  unfold dictGet
  cases hf : List.find? (fun kv => decide (kv.1 = k)) d with
  | some kv2 => exact ⟨kv2.2, rfl⟩
  | none =>
      rw [List.find?_eq_none] at hf
      exact absurd (by simpa using hp) (by simpa using hf kv hm)

theorem yamlProcessTest_eq_jobj (td : List (String × JValue)) :
    yamlProcessTest (jobj td) =
      (match (dictGet td "params").getD .null with
        | .null => mkSingleTest (dictSet td "params" (jobj []))
        | _ => mkSingleTest td) := by
  unfold yamlProcessTest
  rw [asObj_jobj]

/-! ## Claim C6 — the JSON (nested-question) format -/

/-- The JSON value of the C6 example file
`[{"title":"Q1","parts":[{"responseAreas":[{"params":{},"answer":"42","tests":[{"response":"42","expected_result":{"is_correct":true}}]}]}]}]`. -/
def c6Input : JValue :=
  jarr [jobj [("title", .str "Q1"),
    ("parts", jarr [jobj [("responseAreas", jarr [jobj
      [("params", jobj []), ("answer", .str "42"),
       ("tests", jarr [jobj [("response", .str "42"),
         ("expected_result", jobj [("is_correct", .bool true)])]])]])]])]]

/-- Expected parse of `c6Input`. -/
def c6Groups : List Group :=
  [⟨.str "Q1", [⟨.str "42", jobj [], .str "",
    [⟨.str "", .str "42", .bool true, [("is_correct", .bool true)]⟩]⟩]⟩]

/-- A JSON file whose single test entry carries a `sub_tests` list of two
entries — accepted by the parser. -/
def c6CexInput : JValue :=
  jarr [jobj [("title", .str "Q1"),
    ("parts", jarr [jobj [("responseAreas", jarr [jobj
      [("params", jobj []), ("answer", .str "42"),
       ("tests", jarr [jobj [("sub_tests", jarr
         [jobj [("response", .str "41"),
            ("expected_result", jobj [("is_correct", .bool false)])],
          jobj [("response", .str "42"),
            ("expected_result", jobj [("is_correct", .bool true)])]])]])]])]])]]

/-- Parse of `c6CexInput`: one Test with TWO SubTests. -/
def c6CexGroups : List Group :=
  [⟨.str "Q1", [⟨.str "42", jobj [], .str "",
    [⟨.str "", .str "41", .bool false, [("is_correct", .bool false)]⟩,
     ⟨.str "", .str "42", .bool true, [("is_correct", .bool true)]⟩]⟩]⟩]

/-- C6 counterexample: a JSON-format file that parses successfully in which a
tests-sequence entry yields one Test with two SubTests, not exactly one — the
JSON branch feeds each entry to `SingleTest`, which honours a `sub_tests`
key even in this format. -/
theorem C6_counterexample :
    parseJsonTests c6CexInput = .ok c6CexGroups ∧
    ¬ (∀ g ∈ c6CexGroups, ∀ t ∈ g.tests, t.sub_tests.length = 1) :=
  ⟨rfl, by decide⟩

/-- C6 (amended): for every JSON test-specification file that parses
successfully, each entry of a response area's tests sequence that does not
itself carry a `sub_tests` key yields exactly one Test with exactly one
SubTest; the response area's `answer` and `params` are injected into the
test before the SubTest is built (each produced Test carries them); and the
concrete example parses to one TestGroup "Q1" with one Test having one
SubTest with response "42" and expectedIsCorrect true. -/
theorem C6_amended :
    (∀ (d : List (String × JValue)) (t : Test), dictContains d "sub_tests" = false →
        mkSingleTest d = .ok t → t.sub_tests.length = 1) ∧
    (∀ (answer params tv : JValue) (t : Test), processJsonTest answer params tv = .ok t →
        t.answer = answer ∧ t.params = params) ∧
    parseJsonTests c6Input = .ok c6Groups := by
  refine ⟨?_, ?_, rfl⟩
  · intro d t hc h
    exact (mkSingleTest_no_sub_tests hc h).1
  · intro answer params tv t h
    unfold processJsonTest at h
    cases ha : asObj tv with
    | error e => simp [ha] at h
    | ok td =>
        simp only [ha] at h
        constructor
        · rw [mkSingleTest_answer h,
            dictGet_dictSet_ne _ params (by decide : "answer" ≠ "params"),
            dictGet_dictSet_self]
          rfl
        · rw [mkSingleTest_params h, dictGet_dictSet_self]
          rfl

/-- Witness for C6_amended: instantiate both universal parts at concrete
inputs. -/
theorem C6_witness :
    (⟨.str "7", jobj [], .str "",
        [⟨.str "", .str "7", .bool true, [("is_correct", .bool true)]⟩]⟩ : Test).sub_tests.length = 1 ∧
    ((⟨.str "7", jobj [], .str "",
        [⟨.str "", .str "7", .bool true, [("is_correct", .bool true)]⟩]⟩ : Test).answer = .str "7" ∧
      (⟨.str "7", jobj [], .str "",
        [⟨.str "", .str "7", .bool true, [("is_correct", .bool true)]⟩]⟩ : Test).params = jobj []) :=
  ⟨C6_amended.1
      [("response", .str "7"), ("expected_result", jobj [("is_correct", .bool true)]),
        ("answer", .str "7"), ("params", jobj [])]
      _ (by decide) rfl,
    C6_amended.2.1 (.str "7") (jobj [])
      (jobj [("response", .str "7"), ("expected_result", jobj [("is_correct", .bool true)])])
      _ rfl⟩

/-! ## Claim C7 — the flat (multi-document) format -/

/-- The YAML document of the C7 example:
`tests: [{answer: "42", sub_tests: [{response: "41", expected_result: {is_correct: false}}, {response: "42", expected_result: {is_correct: true}}]}]`. -/
def c7Doc : JValue :=
  jobj [("tests", jarr [jobj [("answer", .str "42"),
    ("sub_tests", jarr
      [jobj [("response", .str "41"),
         ("expected_result", jobj [("is_correct", .bool false)])],
       jobj [("response", .str "42"),
         ("expected_result", jobj [("is_correct", .bool true)])]])]])]

/-- Expected parse of `[c7Doc]`: one Test, answer "42", two SubTests. -/
def c7Groups : List Group :=
  [⟨.str "", [⟨.str "42", jobj [], .str "",
    [⟨.str "", .str "41", .bool false, [("is_correct", .bool false)]⟩,
     ⟨.str "", .str "42", .bool true, [("is_correct", .bool true)]⟩]⟩]⟩]

/-- C7: in the flat format, a test with a missing (or None) `params` gets an
empty mapping; a test with a `sub_tests` sequence yields one SubTest per
entry, the Test carrying the parent's `answer` and `params` (shared by all
its SubTests, which hold no answer/params of their own); a test without
`sub_tests` yields exactly one implicit SubTest using the test's own
`response`; and the concrete example yields one Test with two SubTests
inheriting answer "42". -/
theorem C7_theorem :
    (∀ (td : List (String × JValue)) (t : Test),
        (dictGet td "params").getD .null = .null →
        yamlProcessTest (jobj td) = .ok t → t.params = jobj []) ∧
    (∀ (td : List (String × JValue)) (xs : List JValue) (t : Test),
        dictGet td "sub_tests" = some (jarr xs) →
        yamlProcessTest (jobj td) = .ok t →
        t.sub_tests.length = xs.length ∧
          t.answer = (dictGet td "answer").getD (.str "")) ∧
    (∀ (td : List (String × JValue)) (t : Test) (pv : JValue),
        dictGet td "params" = some pv → pv ≠ .null →
        yamlProcessTest (jobj td) = .ok t → t.params = pv) ∧
    (∀ (td : List (String × JValue)) (t : Test),
        dictContains td "sub_tests" = false →
        yamlProcessTest (jobj td) = .ok t →
        t.sub_tests.length = 1 ∧
          t.sub_tests.map SubTest.response = [(dictGet td "response").getD (.str "")]) ∧
    parseYamlTests [c7Doc] = .ok c7Groups := by
  refine ⟨?_, ?_, ?_, ?_, rfl⟩
  · intro td t hp h
    rw [yamlProcessTest_eq_jobj] at h
    simp only [hp] at h
    rw [mkSingleTest_params h, dictGet_dictSet_self]
    rfl
  · intro td xs t hst h
    rw [yamlProcessTest_eq_jobj] at h
    have hget : ∀ d2 : List (String × JValue),
        dictGet d2 "sub_tests" = some (jarr xs) → mkSingleTest d2 = .ok t →
        t.sub_tests.length = xs.length ∧
          t.answer = (dictGet d2 "answer").getD (.str "") := by
      intro d2 hst2 h2
      have hc : dictContains d2 "sub_tests" = true := dictContains_of_get hst2
      have hiter : pyIter ((dictGet d2 "sub_tests").getD .null) = .ok xs := by
        rw [hst2]; exact pyIter_jarr xs
      exact ⟨mkSingleTest_sub_tests_length hc hiter h2, mkSingleTest_answer h2⟩
    cases hp : (dictGet td "params").getD .null with
    | null =>
        simp only [hp] at h
        have h1 := hget (dictSet td "params" (jobj []))
          (by rw [dictGet_dictSet_ne _ _ (by decide : "sub_tests" ≠ "params")]; exact hst) h
        rw [dictGet_dictSet_ne _ _ (by decide : "answer" ≠ "params")] at h1
        exact h1
    | bool b => simp only [hp] at h; exact hget td hst h
    | num s => simp only [hp] at h; exact hget td hst h
    | str s => simp only [hp] at h; exact hget td hst h
    | arr xs2 => simp only [hp] at h; exact hget td hst h
    | obj kvs => simp only [hp] at h; exact hget td hst h
  · intro td t pv hpv hpvne h
    rw [yamlProcessTest_eq_jobj] at h
    cases hp : (dictGet td "params").getD .null with
    | null =>
        rw [hpv] at hp
        simp only [Option.getD_some] at hp
        exact absurd hp hpvne
    | bool b => simp only [hp] at h; rw [mkSingleTest_params h, hpv]; rfl
    | num s => simp only [hp] at h; rw [mkSingleTest_params h, hpv]; rfl
    | str s => simp only [hp] at h; rw [mkSingleTest_params h, hpv]; rfl
    | arr xs2 => simp only [hp] at h; rw [mkSingleTest_params h, hpv]; rfl
    | obj kvs => simp only [hp] at h; rw [mkSingleTest_params h, hpv]; rfl
  · intro td t hc h
    rw [yamlProcessTest_eq_jobj] at h
    cases hp : (dictGet td "params").getD .null with
    | null =>
        simp only [hp] at h
        have hc2 : dictContains (dictSet td "params" (jobj [])) "sub_tests" = false := by
          rw [dictContains_dictSet_ne _ _ (by decide : "sub_tests" ≠ "params")]; exact hc
        have h1 := mkSingleTest_no_sub_tests hc2 h
        rw [dictGet_dictSet_ne _ _ (by decide : "response" ≠ "params")] at h1
        exact h1
    | bool b => simp only [hp] at h; exact mkSingleTest_no_sub_tests hc h
    | num s => simp only [hp] at h; exact mkSingleTest_no_sub_tests hc h
    | str s => simp only [hp] at h; exact mkSingleTest_no_sub_tests hc h
    | arr xs2 => simp only [hp] at h; exact mkSingleTest_no_sub_tests hc h
    | obj kvs => simp only [hp] at h; exact mkSingleTest_no_sub_tests hc h

/-- The test dict of `c7Doc`. -/
def c7TestDict : List (String × JValue) :=
  [("answer", .str "42"),
   ("sub_tests", jarr
     [jobj [("response", .str "41"),
        ("expected_result", jobj [("is_correct", .bool false)])],
      jobj [("response", .str "42"),
        ("expected_result", jobj [("is_correct", .bool true)])]])]

/-- The `sub_tests` entries of `c7TestDict`. -/
def c7SubTestList : List JValue :=
  [jobj [("response", .str "41"),
     ("expected_result", jobj [("is_correct", .bool false)])],
   jobj [("response", .str "42"),
     ("expected_result", jobj [("is_correct", .bool true)])]]

/-- Parse of `c7TestDict`. -/
def c7ParsedTest : Test :=
  ⟨.str "42", jobj [], .str "",
    [⟨.str "", .str "41", .bool false, [("is_correct", .bool false)]⟩,
     ⟨.str "", .str "42", .bool true, [("is_correct", .bool true)]⟩]⟩

/-- A flat-format test without `sub_tests`. -/
def c7ImplicitDict : List (String × JValue) :=
  [("response", .str "5"), ("expected_result", jobj [("is_correct", .bool true)])]

/-- Parse of `c7ImplicitDict`. -/
def c7ImplicitTest : Test :=
  ⟨.str "", jobj [], .str "", [⟨.str "", .str "5", .bool true, [("is_correct", .bool true)]⟩]⟩

/-- A flat-format test that carries its own `params` mapping. -/
def c7ParamsDict : List (String × JValue) :=
  [("answer", .str "1"), ("params", jobj [("k", .str "v")]),
   ("response", .str "1"), ("expected_result", jobj [("is_correct", .bool true)])]

/-- Parse of `c7ParamsDict`. -/
def c7ParamsTest : Test :=
  ⟨.str "1", jobj [("k", .str "v")], .str "",
    [⟨.str "", .str "1", .bool true, [("is_correct", .bool true)]⟩]⟩

/-- Witness for C7_theorem: instantiate its universal parts on concrete
flat-format tests. -/
theorem C7_witness :
    c7ParsedTest.params = jobj [] ∧ c7ParsedTest.sub_tests.length = 2 ∧
      c7ParsedTest.answer = .str "42" ∧
      c7ParamsTest.params = jobj [("k", .str "v")] ∧
      c7ImplicitTest.sub_tests.length = 1 ∧
      c7ImplicitTest.sub_tests.map SubTest.response = [JValue.str "5"] := by
  refine ⟨?_, ?_, ?_, ?_, ?_, ?_⟩
  · exact C7_theorem.1 c7TestDict c7ParsedTest (by decide) (by rfl)
  · exact (C7_theorem.2.1 c7TestDict c7SubTestList c7ParsedTest (by decide) (by rfl)).1
  · exact (C7_theorem.2.1 c7TestDict c7SubTestList c7ParsedTest (by decide) (by rfl)).2
  · exact C7_theorem.2.2.1 c7ParamsDict c7ParamsTest (jobj [("k", .str "v")])
      (by decide) (by decide) (by rfl)
  · exact (C7_theorem.2.2.2.1 c7ImplicitDict c7ImplicitTest (by decide) (by rfl)).1
  · exact (C7_theorem.2.2.2.1 c7ImplicitDict c7ImplicitTest (by decide) (by rfl)).2

/-! ## Claim C8 — Test/SubTest invariants -/

/-- A flat-format document whose test carries an EMPTY `sub_tests` list. -/
def c8Doc : JValue :=
  jobj [("tests", jarr [jobj [("answer", .str "42"), ("sub_tests", jarr [])]])]

/-- Parse of `[c8Doc]`: a Test with NO SubTests. -/
def c8Groups : List Group := [⟨.str "", [⟨.str "42", jobj [], .str "", []⟩]⟩]

/-- C8 counterexample: a test entry with an empty `sub_tests` sequence parses
successfully into a Test with zero SubTests, violating the at-least-one
invariant. -/
theorem C8_counterexample :
    parseYamlTests [c8Doc] = .ok c8Groups ∧
    ¬ (∀ g ∈ c8Groups, ∀ t ∈ g.tests, 1 ≤ t.sub_tests.length) :=
  ⟨rfl, by decide⟩

/-- C8 (amended): a Test built from an entry without a `sub_tests` key, or
with a non-empty `sub_tests` sequence, has at least one SubTest (only an
entry whose `sub_tests` iterates to nothing yields an empty Test); and in a
successful parse of either format every SubTest has a non-empty
`expectedResult` mapping. -/
theorem C8_amended :
    (∀ (d : List (String × JValue)) (t : Test), dictContains d "sub_tests" = false →
        mkSingleTest d = .ok t → 1 ≤ t.sub_tests.length) ∧
    (∀ (d : List (String × JValue)) (v : JValue) (xs : List JValue) (t : Test),
        dictGet d "sub_tests" = some v → pyIter v = .ok xs → xs ≠ [] →
        mkSingleTest d = .ok t → 1 ≤ t.sub_tests.length) ∧
    (∀ (v : JValue) (gs : List Group), parseJsonTests v = .ok gs →
        ∀ g ∈ gs, ∀ t ∈ g.tests, ∀ st ∈ t.sub_tests, st.expected_result ≠ []) ∧
    (∀ (docs : List JValue) (gs : List Group), parseYamlTests docs = .ok gs →
        ∀ g ∈ gs, ∀ t ∈ g.tests, ∀ st ∈ t.sub_tests, st.expected_result ≠ []) := by
  refine ⟨?_, ?_, ?_, ?_⟩
  · intro d t hc h
    exact le_of_eq (mkSingleTest_no_sub_tests hc h).1.symm
  · intro d v xs t hv hi hne h
    have hc := dictContains_of_get hv
    have hi2 : pyIter ((dictGet d "sub_tests").getD .null) = .ok xs := by
      rw [hv]; exact hi
    rw [mkSingleTest_sub_tests_length hc hi2 h]
    exact List.length_pos.mpr hne
  · intro v gs h g hg t ht st hst
    obtain ⟨d, hd⟩ := parseJsonTests_from_mk h g hg t ht
    exact mkSingleTest_er_nonempty hd st hst
  · intro docs gs h g hg t ht st hst
    obtain ⟨d, hd⟩ := parseYamlTests_from_mk h g hg t ht
    exact mkSingleTest_er_nonempty hd st hst

/-- A flat-format test without `sub_tests` (C8 witness input). -/
def c8WitnessDict : List (String × JValue) :=
  [("response", .str "1"), ("expected_result", jobj [("is_correct", .bool true)])]

/-- Parse of `c8WitnessDict`. -/
def c8WitnessTest : Test :=
  ⟨.str "", jobj [], .str "", [⟨.str "", .str "1", .bool true, [("is_correct", .bool true)]⟩]⟩

/-- A test dict with one `sub_tests` entry (C8 witness input). -/
def c8SubDict : List (String × JValue) :=
  [("sub_tests", jarr [jobj [("response", .str "2"),
    ("expected_result", jobj [("is_correct", .bool false)])]])]

/-- The `sub_tests` entries of `c8SubDict`. -/
def c8SubEntries : List JValue :=
  [jobj [("response", .str "2"), ("expected_result", jobj [("is_correct", .bool false)])]]

/-- Parse of `c8SubDict`. -/
def c8SubTest : Test :=
  ⟨.str "", jobj [], .str "", [⟨.str "", .str "2", .bool false, [("is_correct", .bool false)]⟩]⟩

/-- A small JSON file and its parse (C8 witness input). -/
def c8JsonInput : JValue :=
  jarr [jobj [("title", .str "T"),
    ("parts", jarr [jobj [("responseAreas", jarr [jobj
      [("params", jobj []), ("answer", .str "1"),
       ("tests", jarr [jobj [("response", .str "1"),
         ("expected_result", jobj [("is_correct", .bool true)])]])]])]])]]

/-- Parse of `c8JsonInput`. -/
def c8JsonGroups : List Group :=
  [⟨.str "T", [⟨.str "1", jobj [], .str "",
    [⟨.str "", .str "1", .bool true, [("is_correct", .bool true)]⟩]⟩]⟩]

/-- A small YAML document list and its parse (C8 witness input). -/
def c8YamlDocs : List JValue := [jobj [("tests", jarr [jobj c8WitnessDict])]]

/-- Parse of `c8YamlDocs`. -/
def c8YamlGroups : List Group := [⟨.str "", [c8WitnessTest]⟩]

/-- Witness for C8_amended at concrete inputs. -/
theorem C8_witness :
    1 ≤ c8WitnessTest.sub_tests.length ∧ 1 ≤ c8SubTest.sub_tests.length ∧
    (∀ g ∈ c8JsonGroups, ∀ t ∈ g.tests, ∀ st ∈ t.sub_tests, st.expected_result ≠ []) ∧
    (∀ g ∈ c8YamlGroups, ∀ t ∈ g.tests, ∀ st ∈ t.sub_tests, st.expected_result ≠ []) :=
  ⟨C8_amended.1 c8WitnessDict c8WitnessTest (by decide) (by rfl),
   C8_amended.2.1 c8SubDict (jarr c8SubEntries) c8SubEntries c8SubTest
     (by decide) (by rfl) (by decide) (by rfl),
   C8_amended.2.2.1 c8JsonInput c8JsonGroups (by rfl),
   C8_amended.2.2.2 c8YamlDocs c8YamlGroups (by rfl)⟩

/-! ## Claim C9 — SingleTest.compare_all -/

theorem checkFields_none_iff (t : Test) (r : List (String × JValue)) :
    ∀ er : List (String × JValue),
      (checkFields t er r = none ↔
        ∀ kv ∈ er, kv.2 ≠ .null ∧ dictGet r kv.1 = some kv.2) := by
  intro er
  induction er with
  | nil => simp [checkFields]
  | cons kv rest ih =>
      obtain ⟨k, v⟩ := kv
      simp only [checkFields]
      by_cases h1 : (dictGet r k).getD .null = .null
      · rw [if_pos h1]
        constructor
        · intro hc; simp at hc
        · intro hall
          exfalso
          obtain ⟨hne, hget⟩ := hall (k, v) (List.mem_cons_self _ _)
          rw [hget] at h1
          exact hne (by simpa using h1)
      · rw [if_neg h1]
        by_cases h2 : (dictGet r k).getD .null ≠ v
        · rw [if_pos h2]
          constructor
          · intro hc; simp at hc
          · intro hall
            exfalso
            obtain ⟨hne, hget⟩ := hall (k, v) (List.mem_cons_self _ _)
            rw [hget] at h2
            exact h2 (by simp)
        · rw [if_neg h2]
          push_neg at h2
          rw [ih]
          constructor
          · intro hrest kv2 hm
            rcases List.mem_cons.mp hm with he | hm2
            · rw [he]
              cases hdg : dictGet r k with
              | none =>
                  rw [hdg] at h1
                  simp at h1
              | some x =>
                  rw [hdg] at h1 h2
                  simp only [Option.getD_some] at h1 h2
                  subst h2
                  exact ⟨h1, rfl⟩
            · exact hrest kv2 hm2
          · intro hall kv2 hm2
            exact hall kv2 (List.mem_cons_of_mem _ hm2)

theorem compareOne_none_iff {t : Test} {st : SubTest} {r : List (String × JValue)}
    (hic : dictContains r "is_correct" = true) :
    compareOne t st r = .ok none ↔
      ((dictGet r "is_correct").getD .null = st.is_correct ∧
        ∀ kv ∈ st.expected_result, kv.2 ≠ .null ∧ dictGet r kv.1 = some kv.2) := by
  obtain ⟨ec, hec⟩ := dictGet_of_contains hic
  unfold compareOne
  simp only [hec, Option.getD_some]
  by_cases hne : ec ≠ st.is_correct
  · rw [if_pos hne]
    constructor
    · intro hc
      cases hfb : dictGet r "feedback" with
      | none => rw [hfb] at hc; cases hc
      | some fb => rw [hfb] at hc; simp at hc
    · rintro ⟨h1, _⟩
      exact absurd h1 hne
  · rw [if_neg hne]
    push_neg at hne
    simp only [Except.ok.injEq]
    rw [checkFields_none_iff]
    constructor
    · intro h2
      exact ⟨hne, h2⟩
    · rintro ⟨_, h2⟩
      exact h2

theorem compareAllAux_true_iff (t : Test) :
    ∀ (rs : List (List (String × JValue))) (i : Nat),
      (∀ r ∈ rs, dictContains r "is_correct" = true) →
      i + rs.length = t.sub_tests.length →
      (compareAllAux t i rs = .ok (true, "") ↔
        ∀ p ∈ (t.sub_tests.drop i).zip rs,
          ((dictGet p.2 "is_correct").getD .null = p.1.is_correct ∧
            ∀ kv ∈ p.1.expected_result, kv.2 ≠ .null ∧ dictGet p.2 kv.1 = some kv.2)) := by
  intro rs
  induction rs with
  | nil =>
      intro i _ _
      simp [compareAllAux]
  | cons r rest ih =>
      intro i hcont hlen
      have hi : i < t.sub_tests.length := by
        simp only [List.length_cons] at hlen
        omega
      have hdrop : t.sub_tests.drop i = t.sub_tests[i] :: t.sub_tests.drop (i + 1) :=
        List.drop_eq_getElem_cons hi
      unfold compareAllAux
      rw [List.getElem?_eq_getElem hi, hdrop, List.zip_cons_cons]
      have hic := hcont r (List.mem_cons_self _ _)
      cases hco : compareOne t (t.sub_tests[i]) r with
      | error e =>
          simp only [hco]
          constructor
          · intro hc; cases hc
          · intro hall
            have hhead := hall (t.sub_tests[i], r) (List.mem_cons_self _ _)
            have h0 : compareOne t (t.sub_tests[i]) r = .ok none :=
              (compareOne_none_iff hic).mpr hhead
            rw [hco] at h0; cases h0
      | ok o =>
          cases o with
          | some msg =>
              simp only [hco]
              constructor
              · intro hc; simp at hc
              · intro hall
                have hhead := hall (t.sub_tests[i], r) (List.mem_cons_self _ _)
                have h0 : compareOne t (t.sub_tests[i]) r = .ok none :=
                  (compareOne_none_iff hic).mpr hhead
                rw [hco] at h0; simp at h0
          | none =>
              simp only [hco]
              have hlen2 : (i + 1) + rest.length = t.sub_tests.length := by
                simp only [List.length_cons] at hlen
                omega
              have hcont2 : ∀ r2 ∈ rest, dictContains r2 "is_correct" = true :=
                fun r2 hr2 => hcont r2 (List.mem_cons_of_mem _ hr2)
              rw [ih (i + 1) hcont2 hlen2]
              constructor
              · intro hrest p hp
                rcases List.mem_cons.mp hp with he | hp2
                · rw [he]
                  exact (compareOne_none_iff hic).mp hco
                · exact hrest p hp2
              · intro hall p hp
                exact hall p (List.mem_cons_of_mem _ hp)

/-- A test whose expectedResult binds `foo` to null, and an actual result
that also binds `foo` to null (C9 counterexample inputs). -/
def c9NullDoc : JValue :=
  jobj [("tests", jarr [jobj [("answer", .str "42"), ("response", .str "42"),
    ("expected_result", jobj [("is_correct", .bool true), ("foo", .null)])]])]

/-- The Test parsed from `c9NullDoc`. -/
def c9NullTest : Test :=
  ⟨.str "42", jobj [], .str "",
    [⟨.str "", .str "42", .bool true, [("is_correct", .bool true), ("foo", .null)]⟩]⟩

/-- An actual evaluation result that contains `foo: null`. -/
def c9NullActual : List (String × JValue) :=
  [("is_correct", .bool true), ("feedback", .str "ok"), ("foo", .null)]

/-- C9 counterexample: the actual `is_correct` equals `expectedIsCorrect` and
every key of `expectedResult` is present in the actual result with an
exactly equal value (`foo` is present with value null), yet `compare_all`
fails — `eval_result.get(key)` cannot distinguish a null value from a
missing key, so the claimed if-and-only-if characterization is false. -/
theorem C9_counterexample :
    parseYamlTests [c9NullDoc] = .ok [⟨.str "", [c9NullTest]⟩] ∧
    compareAll c9NullTest [c9NullActual] = .ok (false, "No value returned for \"foo\"") ∧
    (∀ p ∈ c9NullTest.sub_tests.zip [c9NullActual],
      ((dictGet p.2 "is_correct").getD .null = p.1.is_correct ∧
        ∀ kv ∈ p.1.expected_result, dictGet p.2 kv.1 = some kv.2)) :=
  ⟨rfl, rfl, by decide⟩

/-- The C9 tolerance example test (expectedResult has tolerance 0.01). -/
def c9TolTest : Test :=
  ⟨.str "42", jobj [], .str "",
    [⟨.str "", .str "42", .bool true,
      [("is_correct", .bool true), ("tolerance", .num "0.01")]⟩]⟩

/-- The C9 tolerance example actual result (tolerance 0.02). -/
def c9TolActual : List (String × JValue) :=
  [("is_correct", .bool true), ("feedback", .str "ok"), ("tolerance", .num "0.02")]

/-- C9 (amended): with one actual-result mapping per SubTest, each carrying
an `is_correct` key, the comparison passes if and only if for every SubTest
the actual `is_correct` equals `expectedIsCorrect` and every key of
`expectedResult` is bound in the actual result to an exactly equal
*non-null* value (a null expected value can never be satisfied, because a
missing key and a stored null are indistinguishable to the code); extra
actual keys never matter (the condition only ranges over `expectedResult`);
the first failing SubTest short-circuits with its diagnostic regardless of
later results; and the tolerance example fails naming `tolerance`, expected
0.01, got 0.02. -/
theorem C9_amended :
    (∀ (t : Test) (rs : List (List (String × JValue))),
        rs.length = t.sub_tests.length →
        (∀ r ∈ rs, dictContains r "is_correct" = true) →
        (compareAll t rs = .ok (true, "") ↔
          ∀ p ∈ t.sub_tests.zip rs,
            ((dictGet p.2 "is_correct").getD .null = p.1.is_correct ∧
              ∀ kv ∈ p.1.expected_result, kv.2 ≠ .null ∧ dictGet p.2 kv.1 = some kv.2))) ∧
    (∀ (t : Test) (st : SubTest) (r : List (String × JValue))
        (rest : List (List (String × JValue))) (msg : String),
        t.sub_tests[0]? = some st → compareOne t st r = .ok (some msg) →
        compareAll t (r :: rest) = .ok (false, msg)) ∧
    compareAll c9TolTest [c9TolActual] = .ok (false,
      "expected tolerance = \"0.01\", got tolerance = \"0.02\"\nTest description: ") := by
  refine ⟨?_, ?_, rfl⟩
  · intro t rs hlen hcont
    have h0 := compareAllAux_true_iff t rs 0 hcont (by omega)
    rw [List.drop_zero] at h0
    exact h0
  · intro t st r rest msg h0 hco
    unfold compareAll compareAllAux
    simp only [h0, hco]

/-- A passing one-SubTest comparison (C9 witness input). -/
def c9WitTest : Test :=
  ⟨.str "1", jobj [], .str "", [⟨.str "", .str "1", .bool true, [("is_correct", .bool true)]⟩]⟩

/-- The matching actual result for `c9WitTest`. -/
def c9WitActual : List (String × JValue) :=
  [("is_correct", .bool true), ("feedback", .str "good")]

/-- A mismatching first SubTest (C9 witness input). -/
def c9ShortTest : Test :=
  ⟨.str "9", jobj [], .str "", [⟨.str "", .str "9", .bool true, [("is_correct", .bool true)]⟩]⟩

/-- An actual result mismatching `c9ShortTest`. -/
def c9ShortActual : List (String × JValue) :=
  [("is_correct", .bool false), ("feedback", .str "bad")]

/-- Witness for C9_amended at concrete inputs. -/
theorem C9_witness :
    (compareAll c9WitTest [c9WitActual] = .ok (true, "") ↔
      ∀ p ∈ c9WitTest.sub_tests.zip [c9WitActual],
        ((dictGet p.2 "is_correct").getD .null = p.1.is_correct ∧
          ∀ kv ∈ p.1.expected_result, kv.2 ≠ .null ∧ dictGet p.2 kv.1 = some kv.2)) ∧
    compareAll c9ShortTest (c9ShortActual :: [[("junk", .null)]]) = .ok (false,
      "response \"9\" with answer \"9\" was incorrect: bad\nTest description: ") :=
  ⟨C9_amended.1 c9WitTest [c9WitActual] (by decide) (by decide),
   C9_amended.2.1 c9ShortTest
     ⟨.str "", .str "9", .bool true, [("is_correct", .bool true)]⟩
     c9ShortActual [[("junk", .null)]]
     "response \"9\" with answer \"9\" was incorrect: bad\nTest description: "
     (by rfl) (by rfl)⟩

/-! ## Claim C10 — parser error behaviour -/

theorem mkSingleTest_requires_er {d : List (String × JValue)} {t : Test}
    (hc : dictContains d "sub_tests" = false) (h : mkSingleTest d = .ok t) :
    truthy ((dictGet d "expected_result").getD .null) = true := by
  simp only [mkSingleTest, hc, Bool.false_eq_true, if_false] at h
  by_cases htr : truthy ((dictGet d "expected_result").getD .null) = false
  · simp [htr] at h
  · cases hx : truthy ((dictGet d "expected_result").getD .null)
    · exact absurd hx htr
    · rfl

theorem subTestOfEntry_requires_er {ekvs : List (String × JValue)} {st : SubTest}
    (h : subTestOfEntry (jobj ekvs) = .ok st) :
    truthy ((dictGet ekvs "expected_result").getD .null) = true := by
  unfold subTestOfEntry at h
  simp only [asObj_jobj] at h
  by_cases htr : truthy ((dictGet ekvs "expected_result").getD .null) = false
  · simp [htr] at h
  · cases hx : truthy ((dictGet ekvs "expected_result").getD .null)
    · exact absurd hx htr
    · rfl

theorem mkSingleTest_entries_ok {d : List (String × JValue)} {v : JValue}
    {xs : List JValue} {t : Test} (hv : dictGet d "sub_tests" = some v)
    (hi : pyIter v = .ok xs) (h : mkSingleTest d = .ok t) :
    ∀ e ∈ xs, ∃ st, subTestOfEntry e = .ok st := by
  have hc := dictContains_of_get hv
  simp only [mkSingleTest, hc, if_true] at h
  simp only [hv, Option.getD_some, hi] at h
  cases hm : exMapM subTestOfEntry xs with
  | error e => simp [hm] at h
  | ok subs => exact fun e he => exMapM_ok_forall hm e he

theorem parseJson_questions_ok {qs : List JValue} {gs : List Group}
    (h : parseJsonTests (jarr qs) = .ok gs) :
    ∀ q ∈ qs, ∃ g, processQuestion q = .ok g := by
  unfold parseJsonTests at h
  simp only [pyIter_jarr] at h
  exact fun q hq => exMapM_ok_forall h q hq

theorem processQuestion_requires_keys {kvs : List (String × JValue)} {g : Group}
    (h : processQuestion (jobj kvs) = .ok g) :
    dictContains kvs "title" = true ∧ dictContains kvs "parts" = true := by
  unfold processQuestion at h
  simp only [pyIndex_jobj] at h
  cases ht : dictGet kvs "title" with
  | none => simp [ht] at h
  | some titlev =>
      refine ⟨dictContains_of_get ht, ?_⟩
      simp only [ht] at h
      cases hp : dictGet kvs "parts" with
      | none => simp [hp] at h
      | some pv => exact dictContains_of_get hp

theorem processQuestion_parts_ok {kvs : List (String × JValue)} {g : Group}
    {partsList : List JValue} (h : processQuestion (jobj kvs) = .ok g)
    (hp : dictGet kvs "parts" = some (jarr partsList)) :
    ∀ part ∈ partsList, ∃ ts, processPart part = .ok ts := by
  unfold processQuestion at h
  simp only [pyIndex_jobj, hp] at h
  cases ht : dictGet kvs "title" with
  | none => simp [ht] at h
  | some titlev =>
      simp only [ht, pyIter_jarr] at h
      cases hm : exMapM processPart partsList with
      | error e => simp [hm] at h
      | ok tss => exact fun part hpart => exMapM_ok_forall hm part hpart

theorem processPart_ras_ok {pkvs : List (String × JValue)} {ts : List Test}
    {ras : List JValue} (h : processPart (jobj pkvs) = .ok ts)
    (hr : dictGet pkvs "responseAreas" = some (jarr ras)) :
    ∀ ra ∈ ras, ∃ ts2, processRA ra = .ok ts2 := by
  unfold processPart at h
  simp only [pyIndex_jobj, hr, pyIter_jarr] at h
  cases hm : exMapM processRA ras with
  | error e => simp [hm] at h
  | ok tss => exact fun ra hra => exMapM_ok_forall hm ra hra

theorem processRA_requires_keys {rkvs : List (String × JValue)} {ts : List Test}
    (h : processRA (jobj rkvs) = .ok ts) :
    dictContains rkvs "params" = true ∧ dictContains rkvs "answer" = true ∧
      dictContains rkvs "tests" = true := by
  unfold processRA at h
  simp only [pyIndex_jobj] at h
  cases h1 : dictGet rkvs "params" with
  | none => simp [h1] at h
  | some pv =>
      simp only [h1] at h
      cases h2 : dictGet rkvs "answer" with
      | none => simp [h2] at h
      | some av =>
          simp only [h2] at h
          cases h3 : dictGet rkvs "tests" with
          | none => simp [h3] at h
          | some tv =>
              exact ⟨dictContains_of_get h1, dictContains_of_get h2,
                dictContains_of_get h3⟩

theorem processRA_tests_ok {rkvs : List (String × JValue)} {ts : List Test}
    {testsList : List JValue} (h : processRA (jobj rkvs) = .ok ts)
    (ht : dictGet rkvs "tests" = some (jarr testsList)) :
    ∃ answer params, ∀ tv ∈ testsList, ∃ t, processJsonTest answer params tv = .ok t := by
  unfold processRA at h
  simp only [pyIndex_jobj, ht] at h
  cases h1 : dictGet rkvs "params" with
  | none => simp [h1] at h
  | some pv =>
      simp only [h1] at h
      cases h2 : dictGet rkvs "answer" with
      | none => simp [h2] at h
      | some av =>
          simp only [h2, pyIter_jarr] at h
          refine ⟨av, pv, ?_⟩
          unfold processRATests at h
          exact fun tv htv => exMapM_ok_forall h tv htv

theorem processJsonTest_requires_er {a p : JValue} {tkvs : List (String × JValue)} {t : Test}
    (hc : dictContains tkvs "sub_tests" = false)
    (h : processJsonTest a p (jobj tkvs) = .ok t) :
    truthy ((dictGet tkvs "expected_result").getD .null) = true := by
  unfold processJsonTest at h
  simp only [asObj_jobj] at h
  have hc2 : dictContains (dictSet (dictSet tkvs "answer" a) "params" p) "sub_tests" = false := by
    rw [dictContains_dictSet_ne _ _ (by decide : "sub_tests" ≠ "params"),
      dictContains_dictSet_ne _ _ (by decide : "sub_tests" ≠ "answer")]
    exact hc
  have h2 := mkSingleTest_requires_er hc2 h
  rwa [dictGet_dictSet_ne _ _ (by decide : "expected_result" ≠ "params"),
    dictGet_dictSet_ne _ _ (by decide : "expected_result" ≠ "answer")] at h2

theorem processJsonTest_entries_ok {a p : JValue} {tkvs : List (String × JValue)}
    {v : JValue} {xs : List JValue} {t : Test}
    (hv : dictGet tkvs "sub_tests" = some v) (hi : pyIter v = .ok xs)
    (h : processJsonTest a p (jobj tkvs) = .ok t) :
    ∀ e ∈ xs, ∃ st, subTestOfEntry e = .ok st := by
  unfold processJsonTest at h
  simp only [asObj_jobj] at h
  have hv2 : dictGet (dictSet (dictSet tkvs "answer" a) "params" p) "sub_tests" = some v := by
    rw [dictGet_dictSet_ne _ _ (by decide : "sub_tests" ≠ "params"),
      dictGet_dictSet_ne _ _ (by decide : "sub_tests" ≠ "answer")]
    exact hv
  exact mkSingleTest_entries_ok hv2 hi h

theorem parseYaml_docs_ok {docs : List JValue} {gs : List Group}
    (h : parseYamlTests docs = .ok gs) :
    ∀ doc ∈ docs, ∃ g, processYamlDoc doc = .ok g :=
  fun doc hdoc => exMapM_ok_forall h doc hdoc

theorem processYamlDoc_tests_ok {dd : List (String × JValue)} {g : Group}
    {testsList : List JValue} (h : processYamlDoc (jobj dd) = .ok g)
    (ht : dictGet dd "tests" = some (jarr testsList)) :
    ∀ tv ∈ testsList, ∃ t, yamlProcessTest tv = .ok t := by
  unfold processYamlDoc at h
  simp only [asObj_jobj, ht, Option.getD_some, pyIter_jarr] at h
  cases hm : exMapM yamlProcessTest testsList with
  | error e => simp [hm] at h
  | ok out => exact fun tv htv => exMapM_ok_forall hm tv htv

theorem yamlProcessTest_requires_er {tkvs : List (String × JValue)} {t : Test}
    (hc : dictContains tkvs "sub_tests" = false)
    (h : yamlProcessTest (jobj tkvs) = .ok t) :
    truthy ((dictGet tkvs "expected_result").getD .null) = true := by
  rw [yamlProcessTest_eq_jobj] at h
  have hnull : ∀ h2 : mkSingleTest (dictSet tkvs "params" (jobj [])) = .ok t,
      truthy ((dictGet tkvs "expected_result").getD .null) = true := by
    intro h2
    have hc2 : dictContains (dictSet tkvs "params" (jobj [])) "sub_tests" = false := by
      rw [dictContains_dictSet_ne _ _ (by decide : "sub_tests" ≠ "params")]
      exact hc
    have h3 := mkSingleTest_requires_er hc2 h2
    rwa [dictGet_dictSet_ne _ _ (by decide : "expected_result" ≠ "params")] at h3
  cases hp : (dictGet tkvs "params").getD .null with
  | null => simp only [hp] at h; exact hnull h
  | bool b => simp only [hp] at h; exact mkSingleTest_requires_er hc h
  | num s => simp only [hp] at h; exact mkSingleTest_requires_er hc h
  | str s => simp only [hp] at h; exact mkSingleTest_requires_er hc h
  | arr xs2 => simp only [hp] at h; exact mkSingleTest_requires_er hc h
  | obj kvs2 => simp only [hp] at h; exact mkSingleTest_requires_er hc h

theorem yamlProcessTest_entries_ok {tkvs : List (String × JValue)} {v : JValue}
    {xs : List JValue} {t : Test} (hv : dictGet tkvs "sub_tests" = some v)
    (hi : pyIter v = .ok xs) (h : yamlProcessTest (jobj tkvs) = .ok t) :
    ∀ e ∈ xs, ∃ st, subTestOfEntry e = .ok st := by
  rw [yamlProcessTest_eq_jobj] at h
  have hnull : ∀ h2 : mkSingleTest (dictSet tkvs "params" (jobj [])) = .ok t,
      ∀ e ∈ xs, ∃ st, subTestOfEntry e = .ok st := by
    intro h2
    have hv2 : dictGet (dictSet tkvs "params" (jobj [])) "sub_tests" = some v := by
      rw [dictGet_dictSet_ne _ _ (by decide : "sub_tests" ≠ "params")]
      exact hv
    exact mkSingleTest_entries_ok hv2 hi h2
  cases hp : (dictGet tkvs "params").getD .null with
  | null => simp only [hp] at h; exact hnull h
  | bool b => simp only [hp] at h; exact mkSingleTest_entries_ok hv hi h
  | num s => simp only [hp] at h; exact mkSingleTest_entries_ok hv hi h
  | str s => simp only [hp] at h; exact mkSingleTest_entries_ok hv hi h
  | arr xs2 => simp only [hp] at h; exact mkSingleTest_entries_ok hv hi h
  | obj kvs2 => simp only [hp] at h; exact mkSingleTest_entries_ok hv hi h

/-- A flat-format test that has a `sub_tests` sequence but no
`expected_result` of its own. -/
def c10TestDict : List (String × JValue) :=
  [("sub_tests", jarr [jobj [("response", .str "1"),
     ("expected_result", jobj [("is_correct", .bool true)])]])]

/-- A YAML document containing `c10TestDict`. -/
def c10Doc : JValue := jobj [("tests", jarr [jobj c10TestDict])]

/-- Parse of `[c10Doc]` — it succeeds. -/
def c10Groups : List Group :=
  [⟨.str "", [⟨.str "", jobj [], .str "",
    [⟨.str "", .str "1", .bool true, [("is_correct", .bool true)]⟩]⟩]⟩]

/-- C10 counterexample: a test entry that lacks an expected-result object
(but carries `sub_tests`) parses successfully — the parse does not raise for
every test lacking an expected-result object, only for those without
`sub_tests` (and for `sub_tests` entries). -/
theorem C10_counterexample :
    dictContains c10TestDict "expected_result" = false ∧
    parseYamlTests [c10Doc] = .ok c10Groups :=
  ⟨by decide, rfl⟩

/-- C10 (amended): the parse fails (no TestGroups are returned — the result
is all-or-nothing by construction, an exception aborts `TestFile.__init__`)
whenever: the extension is neither `json` nor `yaml`; a JSON question lacks
`title` or `parts`; a JSON response area lacks `params`, `answer` or
`tests`; or a test without a `sub_tests` key — or an entry of a `sub_tests`
sequence — lacks a truthy expected-result object, in either format. -/
theorem C10_amended :
    (∀ (content : SourceDoc) (name : String),
        (pySplitChar name '.').getLastD "" ≠ "json" →
        (pySplitChar name '.').getLastD "" ≠ "yaml" →
        testFileParse content name = .error (.exc ("\"" ++ (pySplitChar name '.').getLastD ""
          ++ "\" files are not supported as a test format."))) ∧
    (∀ (qs : List JValue) (kvs : List (String × JValue)) (gs : List Group),
        jobj kvs ∈ qs →
        (dictContains kvs "title" = false ∨ dictContains kvs "parts" = false) →
        parseJsonTests (jarr qs) ≠ .ok gs) ∧
    (∀ (qs : List JValue) (kvs pkvs rkvs : List (String × JValue))
        (partsList ras : List JValue) (gs : List Group),
        jobj kvs ∈ qs → dictGet kvs "parts" = some (jarr partsList) →
        jobj pkvs ∈ partsList → dictGet pkvs "responseAreas" = some (jarr ras) →
        jobj rkvs ∈ ras →
        (dictContains rkvs "params" = false ∨ dictContains rkvs "answer" = false ∨
          dictContains rkvs "tests" = false) →
        parseJsonTests (jarr qs) ≠ .ok gs) ∧
    (∀ (qs : List JValue) (kvs pkvs rkvs tkvs : List (String × JValue))
        (partsList ras testsList : List JValue) (gs : List Group),
        jobj kvs ∈ qs → dictGet kvs "parts" = some (jarr partsList) →
        jobj pkvs ∈ partsList → dictGet pkvs "responseAreas" = some (jarr ras) →
        jobj rkvs ∈ ras → dictGet rkvs "tests" = some (jarr testsList) →
        jobj tkvs ∈ testsList → dictContains tkvs "sub_tests" = false →
        truthy ((dictGet tkvs "expected_result").getD .null) = false →
        parseJsonTests (jarr qs) ≠ .ok gs) ∧
    (∀ (docs : List JValue) (dd tkvs : List (String × JValue))
        (testsList : List JValue) (gs : List Group),
        jobj dd ∈ docs → dictGet dd "tests" = some (jarr testsList) →
        jobj tkvs ∈ testsList → dictContains tkvs "sub_tests" = false →
        truthy ((dictGet tkvs "expected_result").getD .null) = false →
        parseYamlTests docs ≠ .ok gs) ∧
    (∀ (docs : List JValue) (dd tkvs ekvs : List (String × JValue))
        (testsList xs : List JValue) (gs : List Group),
        jobj dd ∈ docs → dictGet dd "tests" = some (jarr testsList) →
        jobj tkvs ∈ testsList → dictGet tkvs "sub_tests" = some (jarr xs) →
        jobj ekvs ∈ xs →
        truthy ((dictGet ekvs "expected_result").getD .null) = false →
        parseYamlTests docs ≠ .ok gs) := by
  refine ⟨?_, ?_, ?_, ?_, ?_, ?_⟩
  · intro content name h1 h2
    unfold testFileParse
    rw [if_neg h1, if_neg h2]
  · intro qs kvs gs hq hmiss h
    obtain ⟨g, hg⟩ := parseJson_questions_ok h (jobj kvs) hq
    obtain ⟨ht, hp⟩ := processQuestion_requires_keys hg
    rcases hmiss with hm | hm
    · rw [ht] at hm; cases hm
    · rw [hp] at hm; cases hm
  · intro qs kvs pkvs rkvs partsList ras gs hq hparts hpart hras hra hmiss h
    obtain ⟨g, hg⟩ := parseJson_questions_ok h (jobj kvs) hq
    obtain ⟨ts, hts⟩ := processQuestion_parts_ok hg hparts (jobj pkvs) hpart
    obtain ⟨ts2, hts2⟩ := processPart_ras_ok hts hras (jobj rkvs) hra
    obtain ⟨h1, h2, h3⟩ := processRA_requires_keys hts2
    rcases hmiss with hm | hm | hm
    · rw [h1] at hm; cases hm
    · rw [h2] at hm; cases hm
    · rw [h3] at hm; cases hm
  · intro qs kvs pkvs rkvs tkvs partsList ras testsList gs
      hq hparts hpart hras hra htests htv hcsub her h
    obtain ⟨g, hg⟩ := parseJson_questions_ok h (jobj kvs) hq
    obtain ⟨ts, hts⟩ := processQuestion_parts_ok hg hparts (jobj pkvs) hpart
    obtain ⟨ts2, hts2⟩ := processPart_ras_ok hts hras (jobj rkvs) hra
    obtain ⟨answer, params, hall⟩ := processRA_tests_ok hts2 htests
    obtain ⟨t, htp⟩ := hall (jobj tkvs) htv
    rw [processJsonTest_requires_er hcsub htp] at her
    cases her
  · intro docs dd tkvs testsList gs hdoc htests htv hcsub her h
    obtain ⟨g, hg⟩ := parseYaml_docs_ok h (jobj dd) hdoc
    obtain ⟨t, htp⟩ := processYamlDoc_tests_ok hg htests (jobj tkvs) htv
    rw [yamlProcessTest_requires_er hcsub htp] at her
    cases her
  · intro docs dd tkvs ekvs testsList xs gs hdoc htests htv hsub hentry her h
    obtain ⟨g, hg⟩ := parseYaml_docs_ok h (jobj dd) hdoc
    obtain ⟨t, htp⟩ := processYamlDoc_tests_ok hg htests (jobj tkvs) htv
    obtain ⟨st, hst⟩ :=
      yamlProcessTest_entries_ok hsub (pyIter_jarr xs) htp (jobj ekvs) hentry
    rw [subTestOfEntry_requires_er hst] at her
    cases her

/-- Witness inputs for C10 (each instantiation of the amended theorem). -/
def c10NoTitleQ : List (String × JValue) := [("parts", jarr [])]

/-- A question whose response area lacks `answer`. -/
def c10BadRA : List (String × JValue) := [("params", jobj []), ("tests", jarr [])]

/-- A question wrapping `c10BadRA`. -/
def c10BadRAQ : List (String × JValue) :=
  [("title", .str "T"),
   ("parts", jarr [jobj [("responseAreas", jarr [jobj c10BadRA])]])]

/-- A JSON test entry with no `sub_tests` and no `expected_result`. -/
def c10BadTest : List (String × JValue) := [("response", .str "1")]

/-- A question wrapping `c10BadTest`. -/
def c10BadTestQ : List (String × JValue) :=
  [("title", .str "T"),
   ("parts", jarr [jobj [("responseAreas", jarr [jobj
     [("params", jobj []), ("answer", .str "1"),
      ("tests", jarr [jobj c10BadTest])]])]])]

/-- A YAML doc whose test lacks `expected_result`. -/
def c10BadYamlDoc : List (String × JValue) := [("tests", jarr [jobj c10BadTest])]

/-- A YAML doc whose test has a `sub_tests` entry lacking `expected_result`. -/
def c10BadEntryDoc : List (String × JValue) :=
  [("tests", jarr [jobj [("sub_tests", jarr [jobj c10BadTest])]])]

/-- Witness for C10_amended at concrete inputs. -/
theorem C10_witness :
    testFileParse ⟨.ok .null, .ok []⟩ "tests.txt" =
      .error (.exc "\"txt\" files are not supported as a test format.") ∧
    parseJsonTests (jarr [jobj c10NoTitleQ]) ≠ .ok [] ∧
    parseJsonTests (jarr [jobj c10BadRAQ]) ≠ .ok [] ∧
    parseJsonTests (jarr [jobj c10BadTestQ]) ≠ .ok [] ∧
    parseYamlTests [jobj c10BadYamlDoc] ≠ .ok [] ∧
    parseYamlTests [jobj c10BadEntryDoc] ≠ .ok [] :=
  ⟨C10_amended.1 ⟨.ok .null, .ok []⟩ "tests.txt" (by decide) (by decide),
   C10_amended.2.1 [jobj c10NoTitleQ] c10NoTitleQ []
     (List.mem_singleton.mpr rfl) (Or.inl (by decide)),
   C10_amended.2.2.1 [jobj c10BadRAQ] c10BadRAQ
     [("responseAreas", jarr [jobj c10BadRA])] c10BadRA
     [jobj [("responseAreas", jarr [jobj c10BadRA])]] [jobj c10BadRA] []
     (List.mem_singleton.mpr rfl) (by decide)
     (List.mem_singleton.mpr rfl) (by decide)
     (List.mem_singleton.mpr rfl) (Or.inr (Or.inl (by decide))),
   C10_amended.2.2.2.1 [jobj c10BadTestQ] c10BadTestQ
     [("responseAreas", jarr [jobj [("params", jobj []), ("answer", .str "1"),
        ("tests", jarr [jobj c10BadTest])]])]
     [("params", jobj []), ("answer", .str "1"), ("tests", jarr [jobj c10BadTest])]
     c10BadTest
     [jobj [("responseAreas", jarr [jobj [("params", jobj []), ("answer", .str "1"),
        ("tests", jarr [jobj c10BadTest])]])]]
     [jobj [("params", jobj []), ("answer", .str "1"),
        ("tests", jarr [jobj c10BadTest])]]
     [jobj c10BadTest] []
     (List.mem_singleton.mpr rfl) (by decide)
     (List.mem_singleton.mpr rfl) (by decide)
     (List.mem_singleton.mpr rfl) (by decide)
     (List.mem_singleton.mpr rfl) (by decide) (by decide),
   C10_amended.2.2.2.2.1 [jobj c10BadYamlDoc] c10BadYamlDoc c10BadTest
     [jobj c10BadTest] []
     (List.mem_singleton.mpr rfl) (by decide)
     (List.mem_singleton.mpr rfl) (by decide) (by decide),
   C10_amended.2.2.2.2.2 [jobj c10BadEntryDoc] c10BadEntryDoc
     [("sub_tests", jarr [jobj c10BadTest])] c10BadTest
     [jobj [("sub_tests", jarr [jobj c10BadTest])]] [jobj c10BadTest] []
     (List.mem_singleton.mpr rfl) (by decide)
     (List.mem_singleton.mpr rfl) (by decide)
     (List.mem_singleton.mpr rfl) (by decide)⟩

/-! ## loader_fetch.py — string primitives

Python string operations are modelled on the character list (`String.data`),
which matches Python semantics directly (`str.startswith` is a prefix test
on characters, and so on). -/

/-- Python `s.startswith(p)`. -/
def pyStartsWith (s p : String) : Bool := p.data.isPrefixOf s.data

/-- Python `s.endswith(p)`. -/
def pyEndsWith (s p : String) : Bool := p.data.isSuffixOf s.data

/-- Python `s.lower()`. -/
def pyLower (s : String) : String := ⟨s.data.map Char.toLower⟩

/-- Python `s.strip(c)` for a one-character strip set. -/
def pyStripChar (s : String) (c : Char) : String :=
  ⟨((s.data.dropWhile (fun x => x = c)).reverse.dropWhile (fun x => x = c)).reverse⟩

/-- Python `str.replace` for a one-character pattern (every use in this
repository replaces a single character): replace each occurrence of `old`
by `new`. -/
def replaceChar (old : Char) (new : List Char) : List Char → List Char
  | [] => []
  | c :: cs =>
      if c = old then new ++ replaceChar old new cs
      else c :: replaceChar old new cs

/-- Python `s.replace(old, new)` with a one-character `old`. -/
def pyReplaceChar (s : String) (old : Char) (new : String) : String :=
  ⟨replaceChar old new.data s.data⟩

/-- `posixpath.join` for two components, as called by the fetcher. -/
def osPathJoin (a b : String) : String :=
  if pyStartsWith b "/" then b
  else if a = "" ∨ pyEndsWith a "/" then a ++ b
  else a ++ "/" ++ b

/-- `posixpath.dirname`. -/
def osDirname (p : String) : String :=
  let head := (p.data.reverse.dropWhile (fun c => c ≠ '/')).reverse
  if head.all (fun c => c = '/') then ⟨head⟩
  else ⟨(head.reverse.dropWhile (fun c => c = '/')).reverse⟩

/-- `urllib.parse.urljoin` restricted to the shapes the fetcher produces:
a scheme-less base ending in "/" joined with a plain relative reference —
the base keeps everything up to its last "/"; an absolute-path reference
replaces the whole path.  (Dot-segment, scheme, netloc, query and fragment
handling of the full RFC 3986 algorithm is exercised by no claim and is
omitted.) -/
def urljoin (base rel : String) : String :=
  if rel = "" then base
  else if pyStartsWith rel "/" then rel
  else (⟨(base.data.reverse.dropWhile (fun c => c ≠ '/')).reverse⟩ : String) ++ rel

/-! ## loader_fetch.py — the Markdown AST and the link collector

The mistletoe AST is modelled as a closed tagged variant (spec §9): span
tokens carrying a link target (`Link.target`, `AutoLink.target`,
`Image.src`) and the block/span kinds the edit passes construct.  Rendering
a token with `_MarkdownLinkCollector` visits the token's own target (for
the three link kinds) and then its children (`render_inner`); all other
kinds only recurse into children, and leaf kinds return unchanged. -/

mutual

inductive MdToken where
  | rawText (s : String)
  | link (target : String) (children : MdTokens)
  | autoLink (target : String) (children : MdTokens)
  | image (src : String) (children : MdTokens)
  | heading (level : Nat) (children : MdTokens)
  | paragraph (children : MdTokens)
  | table (lines : List String)
  | blankLine
  deriving Repr

inductive MdTokens where
  | nil
  | cons (head : MdToken) (tail : MdTokens)
  deriving Repr

end

/-- Build an `MdTokens` from a Lean list (notation helper). -/
def mdts : List MdToken → MdTokens
  | [] => .nil
  | t :: ts => .cons t (mdts ts)

/-- `_MarkdownLinkCollector._collect_link` (loader_fetch.py lines 338-347):
a target starting with "http" is returned unchanged and not collected;
any other target is rewritten through the generate_link function and the
(original, rewritten) pair is appended to the collected list. -/
def collectLink (gen : String → String) (url : String)
    (links : List (String × String)) : String × List (String × String) :=
  if pyStartsWith url "http" then (url, links)
  else (gen url, links ++ [(url, gen url)])

mutual

/-- `_MarkdownLinkCollector.render` on one token (loader_fetch.py lines
313-347): for Link/AutoLink/Image the target is rewritten first
(`token.target = self._collect_link(...)`), then the children are rendered
(`super().render_*` → `render_inner`); every other kind renders only its
children; `acc` is the collector's `_links` list. -/
def renderToken (gen : String → String) (acc : List (String × String)) :
    MdToken → MdToken × List (String × String)
  | .rawText s => (.rawText s, acc)
  | .link t cs =>
      let p := collectLink gen t acc
      let q := renderTokens gen p.2 cs
      (.link p.1 q.1, q.2)
  | .autoLink t cs =>
      let p := collectLink gen t acc
      let q := renderTokens gen p.2 cs
      (.autoLink p.1 q.1, q.2)
  | .image t cs =>
      let p := collectLink gen t acc
      let q := renderTokens gen p.2 cs
      (.image p.1 q.1, q.2)
  | .heading l cs =>
      let q := renderTokens gen acc cs
      (.heading l q.1, q.2)
  | .paragraph cs =>
      let q := renderTokens gen acc cs
      (.paragraph q.1, q.2)
  | .table lines => (.table lines, acc)
  | .blankLine => (.blankLine, acc)

/-- `render_inner` over a child list. -/
def renderTokens (gen : String → String) (acc : List (String × String)) :
    MdTokens → MdTokens × List (String × String)
  | .nil => (.nil, acc)
  | .cons t ts =>
      let p := renderToken gen acc t
      let q := renderTokens gen p.2 ts
      (.cons p.1 q.1, q.2)

end

/-- Rendering the top-level Document token (`link_loader.render(doc)`):
render every top-level child left to right. -/
def renderDocTokens (gen : String → String) (acc : List (String × String)) :
    List MdToken → List MdToken × List (String × String)
  | [] => ([], acc)
  | t :: ts =>
      let p := renderToken gen acc t
      let q := renderDocTokens gen p.2 ts
      (p.1 :: q.1, q.2)

/-- The whole collect-and-rewrite pass over a document, returning the
rewritten document and `link_loader.links`. -/
def renderDocument (gen : String → String) (doc : List MdToken) :
    List MdToken × List (String × String) :=
  renderDocTokens gen [] doc

/-- The generate_link lambda passed to the collector (loader_fetch.py
line 153): `os.path.join(self._config.name, str(p).replace("/", "__"))`. -/
def localGenLink (name : String) (p : String) : String :=
  osPathJoin name (pyReplaceChar p '/' "__")

/-! ## Claim C4 — the Link Collector/Rewriter -/

mutual

/-- Specification-side rewrite, written from the spec text (for comparison
with `renderToken`): every Link/AutoLink/Image target starting with "http"
is left unchanged, every other target is rewritten through the local-name
function; all children are visited. -/
def specRewriteToken (gen : String → String) : MdToken → MdToken
  | .rawText s => .rawText s
  | .link t cs =>
      .link (if pyStartsWith t "http" then t else gen t) (specRewriteTokens gen cs)
  | .autoLink t cs =>
      .autoLink (if pyStartsWith t "http" then t else gen t) (specRewriteTokens gen cs)
  | .image t cs =>
      .image (if pyStartsWith t "http" then t else gen t) (specRewriteTokens gen cs)
  | .heading l cs => .heading l (specRewriteTokens gen cs)
  | .paragraph cs => .paragraph (specRewriteTokens gen cs)
  | .table lines => .table lines
  | .blankLine => .blankLine

/-- Specification-side rewrite of a child list. -/
def specRewriteTokens (gen : String → String) : MdTokens → MdTokens
  | .nil => .nil
  | .cons t ts => .cons (specRewriteToken gen t) (specRewriteTokens gen ts)

end

mutual

/-- Specification-side collection, written from the spec text: the original
targets that do not start with "http", in visit order (a node's own target
before its children, document order across siblings), one entry per visited
occurrence. -/
def specCollectToken : MdToken → List String
  | .rawText _ => []
  | .link t cs => (if pyStartsWith t "http" then [] else [t]) ++ specCollectTokens cs
  | .autoLink t cs => (if pyStartsWith t "http" then [] else [t]) ++ specCollectTokens cs
  | .image t cs => (if pyStartsWith t "http" then [] else [t]) ++ specCollectTokens cs
  | .heading _ cs => specCollectTokens cs
  | .paragraph cs => specCollectTokens cs
  | .table _ => []
  | .blankLine => []

/-- Specification-side collection over a child list. -/
def specCollectTokens : MdTokens → List String
  | .nil => []
  | .cons t ts => specCollectToken t ++ specCollectTokens ts

end

/-- Specification-side rewrite of a document. -/
def specRewriteDoc (gen : String → String) : List MdToken → List MdToken :=
  List.map (specRewriteToken gen)

/-- Specification-side collection over a document. -/
def specCollectDoc : List MdToken → List String :=
  fun doc => (doc.map specCollectToken).flatten

mutual

theorem renderToken_spec (gen : String → String) (acc : List (String × String)) :
    ∀ t : MdToken, renderToken gen acc t =
      (specRewriteToken gen t, acc ++ (specCollectToken t).map (fun u => (u, gen u)))
  | .rawText s => by simp [renderToken, specRewriteToken, specCollectToken]
  | .link t cs => by
      simp only [renderToken, specRewriteToken, specCollectToken, collectLink]
      by_cases h : pyStartsWith t "http" = true <;>
        simp [h, renderTokens_spec gen _ cs, List.append_assoc]
  | .autoLink t cs => by
      simp only [renderToken, specRewriteToken, specCollectToken, collectLink]
      by_cases h : pyStartsWith t "http" = true <;>
        simp [h, renderTokens_spec gen _ cs, List.append_assoc]
  | .image t cs => by
      simp only [renderToken, specRewriteToken, specCollectToken, collectLink]
      by_cases h : pyStartsWith t "http" = true <;>
        simp [h, renderTokens_spec gen _ cs, List.append_assoc]
  | .heading l cs => by
      simp [renderToken, specRewriteToken, specCollectToken, renderTokens_spec gen acc cs]
  | .paragraph cs => by
      simp [renderToken, specRewriteToken, specCollectToken, renderTokens_spec gen acc cs]
  | .table lines => by simp [renderToken, specRewriteToken, specCollectToken]
  | .blankLine => by simp [renderToken, specRewriteToken, specCollectToken]

theorem renderTokens_spec (gen : String → String) (acc : List (String × String)) :
    ∀ ts : MdTokens, renderTokens gen acc ts =
      (specRewriteTokens gen ts, acc ++ (specCollectTokens ts).map (fun u => (u, gen u)))
  | .nil => by simp [renderTokens, specRewriteTokens, specCollectTokens]
  | .cons t ts => by
      simp [renderTokens, specRewriteTokens, specCollectTokens,
        renderToken_spec gen acc t, renderTokens_spec gen _ ts, List.append_assoc]

end

theorem renderDocTokens_spec (gen : String → String) (acc : List (String × String)) :
    ∀ doc : List MdToken, renderDocTokens gen acc doc =
      (specRewriteDoc gen doc, acc ++ (specCollectDoc doc).map (fun u => (u, gen u)))
  | [] => by simp [renderDocTokens, specRewriteDoc, specCollectDoc]
  | t :: ts => by
      simp [renderDocTokens, specRewriteDoc, specCollectDoc,
        renderToken_spec gen acc t, renderDocTokens_spec gen _ ts, List.append_assoc]

/-- C4 (amended): the collector/rewriter visits every Link, AutoLink and
Image node; every target starting with "http" is left unchanged and absent
from the returned list; every other target is rewritten through the
local-name function and recorded once per visited occurrence, in visit
order (pre-order document order, not alphabetical). -/
theorem C4_amended (gen : String → String) (doc : List MdToken) :
    renderDocument gen doc =
      (specRewriteDoc gen doc, (specCollectDoc doc).map (fun u => (u, gen u))) := by
  unfold renderDocument
  rw [renderDocTokens_spec]
  simp

/-- Does `p` occur as a contiguous run inside `l`? -/
def containsSub (p : List Char) : List Char → Bool
  | [] => p.isPrefixOf []
  | c :: cs => p.isPrefixOf (c :: cs) || containsSub p cs

/-- A target is scheme-qualified when it carries a URI scheme followed by
"://" (the spec's "absolute (scheme-qualified, e.g. starting with a network
scheme)" targets). -/
def isSchemeQualified (s : String) : Bool := containsSub "://".data s.data

/-- C4 counterexample: "ftp://example.com/a.md" is absolute
(scheme-qualified, with a network scheme), yet the collector rewrites it
and records it in the returned link list — only targets starting with
"http" are left alone. -/
theorem C4_counterexample :
    isSchemeQualified "ftp://example.com/a.md" = true ∧
    renderDocument (localGenLink "fn") [.link "ftp://example.com/a.md" .nil] =
      ([.link "fn/ftp:____example.com__a.md" .nil],
        [("ftp://example.com/a.md", "fn/ftp:____example.com__a.md")]) ∧
    ("fn/ftp:____example.com__a.md" : String) ≠ "ftp://example.com/a.md" :=
  ⟨by decide, rfl, by decide⟩

/-! ## Claim C5 — the local-name function -/

/-- A target with its path separators erased: two targets "differ only in
path-separator composition" when their separator erasures agree. -/
def sepErase (s : String) : String := ⟨s.data.filter (fun c => c ≠ '/')⟩

/-- C5 counterexample: "a_/b" and "a/_b" differ only in where the path
separator sits (both erase to "a_b"), yet both map to the same local name —
replacing "/" by "__" can re-create an underscore pattern that another
target already contained. -/
theorem C5_counterexample :
    ("a_/b" : String) ≠ "a/_b" ∧ sepErase "a_/b" = sepErase "a/_b" ∧
    localGenLink "fn" "a_/b" = localGenLink "fn" "a/_b" :=
  ⟨by decide, by decide, rfl⟩

theorem replaceChar_slash_head (l : List Char) :
    (['/'].isPrefixOf (replaceChar '/' ('_' :: '_' :: []) l)) = false := by
  cases l with
  | nil => rfl
  | cons c cs =>
      by_cases h : c = '/'
      · simp [replaceChar, h, List.isPrefixOf]
      · simp [replaceChar, h, List.isPrefixOf, Ne.symm h]

theorem osPathJoin_right_inj {a b c : String}
    (hb : pyStartsWith b "/" = false) (hc : pyStartsWith c "/" = false)
    (h : osPathJoin a b = osPathJoin a c) : b = c := by
  unfold osPathJoin at h
  rw [hb, hc] at h
  simp only [Bool.false_eq_true, if_false] at h
  by_cases ha : a = "" ∨ pyEndsWith a "/" = true
  · simp only [ha, if_true] at h
    have := congrArg String.data h
    simp only [String.data_append] at this
    exact String.ext (List.append_cancel_left this)
  · simp only [ha, if_false] at h
    have := congrArg String.data h
    simp only [String.data_append] at this
    exact String.ext (List.append_cancel_left this)

theorem replaceChar_slash_inj :
    ∀ l1 l2 : List Char, '_' ∉ l1 → '_' ∉ l2 →
      replaceChar '/' ('_' :: '_' :: []) l1 = replaceChar '/' ('_' :: '_' :: []) l2 →
      l1 = l2 := by
  intro l1
  induction l1 with
  | nil =>
      intro l2 _ h2 h
      cases l2 with
      | nil => rfl
      | cons c cs =>
          by_cases hc : c = '/' <;> simp [replaceChar, hc] at h
  | cons c1 cs1 ih =>
      intro l2 h1 h2 h
      have h1c : c1 ≠ '_' := fun he => h1 (he ▸ List.mem_cons_self _ _)
      have h1t : '_' ∉ cs1 := fun hm => h1 (List.mem_cons_of_mem _ hm)
      cases l2 with
      | nil =>
          by_cases hc : c1 = '/' <;> simp [replaceChar, hc] at h
      | cons c2 cs2 =>
          have h2c : c2 ≠ '_' := fun he => h2 (he ▸ List.mem_cons_self _ _)
          have h2t : '_' ∉ cs2 := fun hm => h2 (List.mem_cons_of_mem _ hm)
          by_cases hx : c1 = '/' <;> by_cases hy : c2 = '/'
          · simp only [replaceChar, hx, hy, if_true, List.cons_append, List.nil_append,
              List.cons.injEq, true_and] at h
            rw [hx, hy, ih cs2 h1t h2t h]
          · simp only [replaceChar, hx, hy, if_true, if_false, List.cons_append,
              List.nil_append, List.cons.injEq] at h
            exact absurd h.1.symm h2c
          · simp only [replaceChar, hx, hy, if_true, if_false, List.cons_append,
              List.nil_append, List.cons.injEq] at h
            exact absurd h.1 h1c
          · simp only [replaceChar, hx, hy, if_false, List.cons.injEq] at h
            rw [h.1, ih cs2 h1t h2t h.2]

/-- C5 (amended): for all relative link targets T1 ≠ T2 that contain no
underscore and differ only in path-separator composition, the local-name
function produces distinct local names within the same fetch job.  (The
restriction to underscore-free targets is forced: the "__" marker collides
with pre-existing underscores, as the counterexample shows.) -/
theorem C5_amended (name t1 t2 : String)
    (h1 : '_' ∉ t1.data) (h2 : '_' ∉ t2.data)
    (hsep : sepErase t1 = sepErase t2) (hne : t1 ≠ t2) :
    localGenLink name t1 ≠ localGenLink name t2 := by
  intro heq
  apply hne
  unfold localGenLink at heq
  have hb : pyStartsWith (pyReplaceChar t1 '/' "__") "/" = false :=
    replaceChar_slash_head t1.data
  have hc : pyStartsWith (pyReplaceChar t2 '/' "__") "/" = false :=
    replaceChar_slash_head t2.data
  have hr := osPathJoin_right_inj hb hc heq
  have hdata := congrArg String.data hr
  exact String.ext (replaceChar_slash_inj t1.data t2.data h1 h2 hdata)

/-- Witness for C5_amended: "a/b" and "ab" differ only in separator
composition and get distinct local names. -/
theorem C5_witness : localGenLink "fn" "a/b" ≠ localGenLink "fn" "ab" :=
  C5_amended "fn" "a/b" "ab" (by decide) (by decide) (by decide) (by decide)

/-! ## loader_fetch.py — the document-graph fetcher (`FetchDocsJob`)

The GitHub client is taken at its interface: a repository is a finite map
from requested path to `ContentFile` (with its canonical `path`), plus the
root listing used by `_fetch_test_file`.  A file's markdown AST (the result
of `mistletoe.Document(...)` on its decoded content) travels with the file,
and `MarkdownRenderer.render` is modelled as the AST itself (spec §3
round-trip invariant).  State mutated by the job (`_visited_files`,
`results`, `_remote_docs_dir`, `_test_file`, files written, warnings
logged, and the log of `get_contents` requests made) is threaded as an
explicit `FetchState`; a raised exception is the `Option PyErr` component,
with the state mutations made before the raise preserved, exactly as in
Python. -/

/-- `FunctionConfig` (loader_base.py). -/
structure FunctionConfig where
  name : String
  docs_dir : Option String
  deriving Repr, DecidableEq

/-- A `github.ContentFile`: canonical `path`, `decoded_content`, and the
mistletoe parse of that content. -/
structure ContentFile where
  path : String
  rawContent : String
  mdDoc : List MdToken
  deriving Repr

/-- One entry of `repo.get_contents("")`, as used by `_fetch_test_file`. -/
structure RootEntry where
  name : String
  content : SourceDoc

/-- The repository interface consumed by the job. -/
structure Repo where
  htmlUrl : String
  defaultBranch : String
  contents : List (String × ContentFile)
  rootListing : List RootEntry

/-- The constructor arguments of `FetchDocsJob`. -/
structure FetchJob where
  category : String
  repo : Repo
  meta : List (String × JValue)
  config : FunctionConfig
  out_dir : String

/-- `DocsFile` (loader_base.py). -/
structure DocsFile where
  file_path : String
  dir : String
  edit_uri : String
  deriving Repr, DecidableEq

/-- `DocsBundle` (loader_base.py). -/
structure DocsBundle where
  main : DocsFile
  supplementary : List DocsFile
  deriving Repr, DecidableEq

/-- What gets written to an output file: raw bytes for a non-markdown file,
or the rendered (edited) document for a markdown file. -/
inductive OutData where
  | rawBytes (s : String)
  | doc (ts : List MdToken)
  deriving Repr

/-- The mutable state of one fetch job. -/
structure FetchState where
  visited : List String
  results : List DocsFile
  remoteDocsDir : Option String
  testFile : Option (List Group)
  written : List (String × OutData)
  warnings : List String
  fetched : List String
  deriving Repr

/-- Python truthiness of `Optional[str]` (both `None` and `""` are falsy). -/
def optTruthy : Option String → Bool
  | none => false
  | some s => s ≠ ""

/-- `repo.get_contents(path)`: the content file at the requested path, or a
not-found error from the client. -/
def repoGetContents (repo : Repo) (path : String) : Except PyErr ContentFile :=
  match repo.contents.find? (fun pc => pc.1 = path) with
  | some pc => .ok pc.2
  | none => .error (.exc ("404 not found: " ++ path))

/-- `FetchDocsJob._edit_url` (loader_fetch.py lines 71-72). -/
def editUrl (repo : Repo) (file : ContentFile) : String :=
  repo.htmlUrl ++ "/blob/" ++ repo.defaultBranch ++ "/" ++ file.path

/-- The known-directory path of `_fetch_file` (loader_fetch.py lines
280-288): strip slashes, append "/", urljoin, request.  Every `get_contents`
request is logged in `fetched`. -/
def fetchFileAt (repo : Repo) (st : FetchState) (docs_dir file_path : String) :
    FetchState × Except PyErr ContentFile :=
  let dd := pyStripChar docs_dir '/' ++ "/"
  let path := urljoin dd file_path
  ({ st with fetched := st.fetched ++ [path] }, repoGetContents repo path)

/-- `FetchDocsJob._locate_file` (loader_fetch.py lines 290-298): try
"docs", then "app/docs". -/
def locateFile (repo : Repo) (st : FetchState) (file_path : String) :
    FetchState × Except PyErr ContentFile :=
  match fetchFileAt repo st "docs" file_path with
  | (st1, .ok f) => (st1, .ok f)
  | (st1, .error _) => fetchFileAt repo st1 "app/docs" file_path

/-- `FetchDocsJob._fetch_file` (loader_fetch.py lines 258-288). -/
def fetchFile (repo : Repo) (st : FetchState) (file_path : String)
    (docs_dir : Option String) : FetchState × Except PyErr ContentFile :=
  if optTruthy docs_dir = false ∧ optTruthy st.remoteDocsDir = false then
    locateFile repo st file_path
  else
    let dd := if optTruthy docs_dir then docs_dir.getD "" else st.remoteDocsDir.getD ""
    fetchFileAt repo st dd file_path

/-- `format_response_areas` (loader_fetch.py lines 349-362). -/
def formatResponseAreas (areas : JValue) : Except PyErr String :=
  if truthy areas = false then
    .ok (String.intercalate "\n"
      ["!!! warning \"Supported Response Area Types\"",
       "    This evaluation function is not configured for any Response Area components"])
  else
    match pyIter areas with
    | .error e => .error e
    | .ok xs =>
        .ok (String.intercalate "\n"
          (["!!! info \"Supported Response Area Types\"",
            "    This evaluation function is supported by the following Response Area components:",
            ""] ++ xs.map (fun t => "      - `" ++ pyStr t ++ "`")))

/-- `sanitise_response` (loader_fetch.py lines 364-367): escape table-cell
delimiters; a non-string input raises `AttributeError` (`.replace`). -/
def sanitiseResponse (v : JValue) : Except PyErr String :=
  match v with
  | .str s => .ok (pyReplaceChar s '|' "\\|")
  | _ => .error (.attributeError "replace")

/-- Index at which the edit passes insert after the first level-1 heading:
`heading + 1` for the first `Heading` with `level == 1`, else `0`
(`heading = -1`). -/
def firstH1Insert (tokens : List MdToken) : Nat :=
  match tokens.findIdx? (fun t => match t with | .heading 1 _ => true | _ => false) with
  | some i => i + 1
  | none => 0

/-- `FetchDocsJob._edit_docs_common` (loader_fetch.py lines 219-238). -/
def editDocsCommon (repo : Repo) (file : ContentFile) (doc : List MdToken) :
    List MdToken :=
  let editContent := String.intercalate "\n"
    ["[Edit on GitHub :fontawesome-solid-pen-to-square:](" ++ editUrl repo file
        ++ ")\x7b .md-button \x7d",
     "[View Code :fontawesome-solid-code:](" ++ repo.htmlUrl ++ ")\x7b .md-button \x7d",
     "", "---", ""]
  doc.insertIdx (firstH1Insert doc) (.paragraph (mdts [.rawText editContent]))

/-- One sub-test of the auto-generated examples section
(loader_fetch.py lines 200-215). -/
def subTestBlocks (answer : JValue) (st : SubTest) : Except PyErr (List MdToken) :=
  match sanitiseResponse st.response with
  | .error e => .error e
  | .ok response =>
      match sanitiseResponse answer with
      | .error e => .error e
      | .ok ans =>
          let correct := if truthy st.is_correct then "✓" else "✗"
          .ok ((if truthy st.desc then
                  [.paragraph (mdts [.rawText (pyStr st.desc)]), .blankLine]
                else []) ++
            [.table ["\n|Response|Answer|Correct?|", "|-|-|-|",
               "|`" ++ response ++ "`|`" ++ ans ++ "`|" ++ correct ++ "|"],
             .blankLine])

/-- One test of the auto-generated examples section
(loader_fetch.py lines 197-215). -/
def testBlocks (t : Test) : Except PyErr (List MdToken) :=
  match exMapM (subTestBlocks t.answer) t.sub_tests with
  | .error e => .error e
  | .ok bss =>
      .ok ([.paragraph (mdts [.rawText (pyStr t.desc)]), .blankLine] ++ bss.flatten)

/-- One test group of the auto-generated examples section
(loader_fetch.py lines 195-215). -/
def groupBlocks (g : Group) : Except PyErr (List MdToken) :=
  match exMapM testBlocks g.tests with
  | .error e => .error e
  | .ok bss => .ok (.heading 3 (mdts [.rawText (pyStr g.title)]) :: bss.flatten)

/-- `FetchDocsJob._edit_user_docs` (loader_fetch.py lines 177-217). -/
def editUserDocs (meta : List (String × JValue)) (testFile : Option (List Group))
    (doc : List MdToken) : Except PyErr (List MdToken) :=
  match formatResponseAreas ((dictGet meta "supportedResponseTypes").getD (jarr [])) with
  | .error e => .error e
  | .ok content =>
      let doc1 := doc.insertIdx (firstH1Insert doc) (.paragraph (mdts [.rawText content]))
      match testFile with
      | none => .ok doc1
      | some groups =>
          match exMapM groupBlocks groups with
          | .error e => .error e
          | .ok bss =>
              .ok (doc1 ++ .heading 2 (mdts [.rawText "Auto-Generated Examples"]) :: bss.flatten)

/-- `FetchDocsJob._edit_docs` (loader_fetch.py lines 167-175): the class
defines a category-specific edit only for "user" (the getattr lookup finds
nothing for other categories), followed by the common edit. -/
def editDocs (category : String) (meta : List (String × JValue))
    (testFile : Option (List Group)) (repo : Repo) (file : ContentFile)
    (doc : List MdToken) : Except PyErr (List MdToken) :=
  match (if category = "user" then editUserDocs meta testFile doc else .ok doc) with
  | .error e => .error e
  | .ok d1 => .ok (editDocsCommon repo file d1)

/-- `FetchDocsJob._process_file` (loader_fetch.py lines 125-165): a
non-markdown file is copied verbatim with no links; a markdown file is
rewritten by the link collector, edited, and rendered. -/
def processFile (cfg : FunctionConfig) (category : String)
    (meta : List (String × JValue)) (testFile : Option (List Group)) (repo : Repo)
    (file : ContentFile) : Except PyErr (OutData × List (String × String)) :=
  if pyEndsWith (pyLower file.path) ".md" = false then
    .ok (.rawBytes file.rawContent, [])
  else
    let r := renderDocument (localGenLink cfg.name) file.mdDoc
    match editDocs category meta testFile repo file r.1 with
    | .error e => .error e
    | .ok d2 => .ok (.doc d2, r.2)

/-- Python `str(e)` for the logged warnings. -/
def pyErrStr : PyErr → String
  | .exc m => m
  | .keyError k => "\x27" ++ k ++ "\x27"
  | .typeError m => m
  | .attributeError m => m
  | .indexError => "list index out of range"

/-- `FetchDocsJob._fetch_test_file` (loader_fetch.py lines 240-256): the
first root file named `eval_tests.*` is parsed; a parse failure is logged
and leaves the test file as None; the loop returns after the first match. -/
def fetchTestFileGo : List RootEntry → Option (List Group) × List String
  | [] => (none, [])
  | e :: rest =>
      if pyStartsWith e.name "eval_tests." then
        match testFileParse e.content e.name with
        | .ok groups => (some groups, [])
        | .error err => (none, ["The test file could not be parsed: " ++ pyErrStr err])
      else fetchTestFileGo rest

/-- The depth-guard warning (loader_fetch.py line 83). -/
def depthWarning (cfg : FunctionConfig) : String :=
  "Reached maximum recursion depth for \x27" ++ cfg.name ++ "\x27"

/-- The recursive-branch warning (loader_fetch.py line 123). -/
def suppWarning (cfg : FunctionConfig) (remotePath : String) (e : PyErr) : String :=
  "Failed to fetch supplemental \x27" ++ remotePath ++ "\x27 for \x27" ++ cfg.name
    ++ "\x27: " ++ pyErrStr e

mutual

/-- `FetchDocsJob._fetch_and_process_file` (loader_fetch.py lines 74-123).
Order as in the source: depth guard, fetch, visited guard, mark visited,
fix the docs dir, process, write, record the output file, then recurse into
the collected links.  A raised exception is returned as `some e` with the
state reached so far. -/
def fetchAndProcessFile (job : FetchJob) (remote_file_path out_file_path : String)
    (level : Nat) (st : FetchState) : FetchState × Option PyErr :=
  if h : level > 4 then
    ({ st with warnings := st.warnings ++ [depthWarning job.config] }, none)
  else
    match fetchFile job.repo st remote_file_path none with
    | (st1, .error e) => (st1, some e)
    | (st1, .ok file) =>
        if file.path ∈ st1.visited then (st1, none)
        else
          let st2 := { st1 with visited := st1.visited ++ [file.path] }
          let st3 := if optTruthy st2.remoteDocsDir then st2
                     else { st2 with remoteDocsDir := some (osDirname file.path) }
          let outPath := osPathJoin (job.category ++ "_eval_function_docs") out_file_path
          match processFile job.config job.category job.meta st3.testFile job.repo file with
          | .error e => (st3, some e)
          | .ok (outData, links) =>
              let st4 := { st3 with
                written := st3.written ++ [(osPathJoin job.out_dir outPath, outData)],
                results := st3.results ++ [⟨outPath, job.out_dir, editUrl job.repo file⟩] }
              fetchChildren job links (level + 1) st4
termination_by (5 - level, 0)
decreasing_by all_goals simp_wf <;> omega

/-- The `for (remote, out) in links` loop (loader_fetch.py lines 118-123):
a failure in a child is caught, logged, and the loop continues. -/
def fetchChildren (job : FetchJob) (links : List (String × String)) (level : Nat)
    (st : FetchState) : FetchState × Option PyErr :=
  match links with
  | [] => (st, none)
  | (rp, op) :: rest =>
      match fetchAndProcessFile job rp op level st with
      | (st1, some e) =>
          fetchChildren job rest level
            { st1 with warnings := st1.warnings ++ [suppWarning job.config rp e] }
      | (st1, none) => fetchChildren job rest level st1
termination_by (5 - level, links.length + 1)
decreasing_by all_goals simp_wf <;> omega

end

/-- The state at the start of `fetch()` (loader_fetch.py lines 39-64):
`_remote_docs_dir` is seeded from the config, `_fetch_test_file` performs
one `get_contents("")` listing request (logged as "") and possibly logs a
parse warning.  `os.mkdir` is a filesystem effect outside the model. -/
def initState (job : FetchJob) : FetchState :=
  let tf := fetchTestFileGo job.repo.rootListing
  { visited := [], results := [], remoteDocsDir := job.config.docs_dir,
    testFile := tf.1, written := [], warnings := tf.2, fetched := [""] }

/-- `FetchDocsJob.fetch` (loader_fetch.py lines 58-69): fetch the test
file, run the recursion from `<category>.md` to `<name>.md`, then split the
results into the main file and the supplementary files.  An exception
escaping the recursion propagates to the caller (no bundle). -/
def jobFetch (job : FetchJob) : FetchState × Except PyErr DocsBundle :=
  let st1 := initState job
  match fetchAndProcessFile job (job.category ++ ".md") (job.config.name ++ ".md") 0 st1 with
  | (st2, some e) => (st2, .error e)
  | (st2, none) =>
      match st2.results with
      | [] => (st2, .error .indexError)
      | main :: rest => (st2, .ok ⟨main, rest⟩)

/-! ## Observers for the written documents -/

mutual

/-- All Link/AutoLink/Image targets of a token, in document order. -/
def linkTargetsToken : MdToken → List String
  | .rawText _ => []
  | .link t cs => t :: linkTargetsTokens cs
  | .autoLink t cs => t :: linkTargetsTokens cs
  | .image t cs => t :: linkTargetsTokens cs
  | .heading _ cs => linkTargetsTokens cs
  | .paragraph cs => linkTargetsTokens cs
  | .table _ => []
  | .blankLine => []

/-- All targets of a child list. -/
def linkTargetsTokens : MdTokens → List String
  | .nil => []
  | .cons t ts => linkTargetsToken t ++ linkTargetsTokens ts

end

/-- All targets of a document. -/
def linkTargetsDoc (doc : List MdToken) : List String :=
  (doc.map linkTargetsToken).flatten

/-- The link targets of every file written by a job, in write order. -/
def writtenLinkTargets (st : FetchState) : List (List String) :=
  st.written.map (fun w =>
    match w.2 with
    | .doc d => linkTargetsDoc d
    | .rawBytes _ => [])

/-! ## Claim C1 — the visited-set (cycle/dedup) guard -/

/-- Document A of the two-document cycle: links to `b.md`. -/
def c1DocA : List MdToken := [.paragraph (mdts [.link "b.md" (mdts [.rawText "B"])])]

/-- Document B of the two-document cycle: links back to `dev.md`. -/
def c1DocB : List MdToken := [.paragraph (mdts [.link "dev.md" (mdts [.rawText "A"])])]

/-- The cycle repository. -/
def c1Repo : Repo :=
  { htmlUrl := "https://x", defaultBranch := "main",
    contents := [("docs/dev.md", ⟨"docs/dev.md", "", c1DocA⟩),
      ("docs/b.md", ⟨"docs/b.md", "", c1DocB⟩)],
    rootListing := [] }

/-- The cycle fetch job. -/
def c1Job : FetchJob :=
  { category := "dev", repo := c1Repo, meta := [],
    config := ⟨"fn", some "docs"⟩, out_dir := "site" }

/-- The bundle produced by the cycle job. -/
def c1Bundle : DocsBundle :=
  ⟨⟨"dev_eval_function_docs/fn.md", "site", "https://x/blob/main/docs/dev.md"⟩,
   [⟨"dev_eval_function_docs/fn/b.md", "site", "https://x/blob/main/docs/b.md"⟩]⟩

/-- C1 counterexample: in the A↔B cycle the already-visited root IS fetched
again — `_fetch_and_process_file` calls `_fetch_file` before consulting
`_visited_files` (the canonical path needed for the check is only known
after the fetch), so `get_contents` is requested three times for two
documents; only processing and output are skipped. -/
theorem C1_counterexample :
    (jobFetch c1Job).1.fetched = ["", "docs/dev.md", "docs/b.md", "docs/dev.md"] ∧
    (jobFetch c1Job).1.visited = ["docs/dev.md", "docs/b.md"] ∧
    (jobFetch c1Job).1.results.length = 2 := by
  refine ⟨?_, ?_, ?_⟩ <;>
  simp [jobFetch, initState, fetchTestFileGo, c1Job, c1Repo, fetchAndProcessFile,
    fetchChildren, fetchFile, fetchFileAt, locateFile, repoGetContents, optTruthy,
    pyStripChar, urljoin, osPathJoin, osDirname, pyStartsWith, pyEndsWith, pyLower,
    editUrl, processFile, renderDocument, renderDocTokens, renderToken, renderTokens,
    collectLink, localGenLink, pyReplaceChar, replaceChar, editDocs, editDocsCommon,
    firstH1Insert, mdts, c1DocA, c1DocB, List.isPrefixOf, List.isSuffixOf, List.find?,
    List.findIdx?]

/-- C1 (amended): when the file resolved for a requested document has a
canonical path already in the visited set (and the depth guard admits the
call), the recursion returns at once with no new output file, nothing
written, nothing marked visited and no error — though the resolution itself
re-requests the file, `_fetch_file` touches nothing but the request log;
consequently the A↔B cycle terminates with exactly 2 output files. -/
theorem C1_amended :
    (∀ (job : FetchJob) (remote out : String) (level : Nat) (st st1 : FetchState)
        (file : ContentFile), ¬ level > 4 →
        fetchFile job.repo st remote none = (st1, .ok file) →
        file.path ∈ st1.visited →
        fetchAndProcessFile job remote out level st = (st1, none)) ∧
    (∀ (repo : Repo) (st : FetchState) (p : String) (d : Option String),
        (fetchFile repo st p d).1.visited = st.visited ∧
        (fetchFile repo st p d).1.results = st.results ∧
        (fetchFile repo st p d).1.written = st.written ∧
        (fetchFile repo st p d).1.warnings = st.warnings) ∧
    ((jobFetch c1Job).2 = .ok c1Bundle ∧ (jobFetch c1Job).1.results.length = 2) := by
  refine ⟨?_, ?_, ?_, ?_⟩
  · intro job remote out level st st1 file hlev hfetch hmem
    unfold fetchAndProcessFile
    rw [dif_neg hlev, hfetch]
    simp [hmem]
  · intro repo st p d
    unfold fetchFile locateFile fetchFileAt
    by_cases hc : optTruthy d = false ∧ optTruthy st.remoteDocsDir = false
    · simp only [hc, if_true]
      cases h2 : repoGetContents repo (urljoin (pyStripChar "docs" '/' ++ "/") p) <;>
        simp [h2]
    · simp [hc]
  · simp [jobFetch, initState, fetchTestFileGo, c1Job, c1Repo, c1Bundle,
      fetchAndProcessFile, fetchChildren, fetchFile, fetchFileAt, locateFile,
      repoGetContents, optTruthy, pyStripChar, urljoin, osPathJoin, osDirname,
      pyStartsWith, pyEndsWith, pyLower, editUrl, processFile, renderDocument,
      renderDocTokens, renderToken, renderTokens, collectLink, localGenLink,
      pyReplaceChar, replaceChar, editDocs, editDocsCommon, firstH1Insert, mdts,
      c1DocA, c1DocB, List.isPrefixOf, List.isSuffixOf, List.find?, List.findIdx?]
  · simp [jobFetch, initState, fetchTestFileGo, c1Job, c1Repo, fetchAndProcessFile,
      fetchChildren, fetchFile, fetchFileAt, locateFile, repoGetContents, optTruthy,
      pyStripChar, urljoin, osPathJoin, osDirname, pyStartsWith, pyEndsWith, pyLower,
      editUrl, processFile, renderDocument, renderDocTokens, renderToken, renderTokens,
      collectLink, localGenLink, pyReplaceChar, replaceChar, editDocs, editDocsCommon,
      firstH1Insert, mdts, c1DocA, c1DocB, List.isPrefixOf, List.isSuffixOf, List.find?,
      List.findIdx?]

/-- The file resolved for the C1 witness call. -/
def c1FileA : ContentFile := ⟨"docs/dev.md", "", c1DocA⟩

/-- A state that has already visited `docs/dev.md`. -/
def c1WitSt : FetchState :=
  { visited := ["docs/dev.md"], results := [], remoteDocsDir := some "docs",
    testFile := none, written := [], warnings := [], fetched := [] }

/-- `c1WitSt` after the witness call's single fetch request. -/
def c1WitSt1 : FetchState := { c1WitSt with fetched := ["docs/dev.md"] }

/-- Witness for C1_amended: a recursive call on an already-visited document
returns with only the fetch log grown. -/
theorem C1_witness :
    fetchAndProcessFile c1Job "dev.md" "fn.md" 1 c1WitSt = (c1WitSt1, none) :=
  C1_amended.1 c1Job "dev.md" "fn.md" 1 c1WitSt c1WitSt1 c1FileA (by omega)
    (by rfl) (by decide)

/-! ## Claim C2 — the depth guard -/

/-- A document holding one link, for the six-document chain. -/
def c2Link (t : String) : List MdToken :=
  [.paragraph (mdts [.link t (mdts [.rawText "next"])])]

/-- The chain repository: dev.md → a1.md → a2.md → a3.md → a4.md → a5.md. -/
def c2Repo : Repo :=
  { htmlUrl := "https://x", defaultBranch := "main",
    contents := [("docs/dev.md", ⟨"docs/dev.md", "", c2Link "a1.md"⟩),
      ("docs/a1.md", ⟨"docs/a1.md", "", c2Link "a2.md"⟩),
      ("docs/a2.md", ⟨"docs/a2.md", "", c2Link "a3.md"⟩),
      ("docs/a3.md", ⟨"docs/a3.md", "", c2Link "a4.md"⟩),
      ("docs/a4.md", ⟨"docs/a4.md", "", c2Link "a5.md"⟩),
      ("docs/a5.md", ⟨"docs/a5.md", "", [.paragraph (mdts [.rawText "end"])]⟩)],
    rootListing := [] }

/-- The chain fetch job. -/
def c2Job : FetchJob :=
  { category := "dev", repo := c2Repo, meta := [],
    config := ⟨"fn", some "docs"⟩, out_dir := "site" }

/-- The bundle produced by the chain job: root plus four linked levels. -/
def c2Bundle : DocsBundle :=
  ⟨⟨"dev_eval_function_docs/fn.md", "site", "https://x/blob/main/docs/dev.md"⟩,
   [⟨"dev_eval_function_docs/fn/a1.md", "site", "https://x/blob/main/docs/a1.md"⟩,
    ⟨"dev_eval_function_docs/fn/a2.md", "site", "https://x/blob/main/docs/a2.md"⟩,
    ⟨"dev_eval_function_docs/fn/a3.md", "site", "https://x/blob/main/docs/a3.md"⟩,
    ⟨"dev_eval_function_docs/fn/a4.md", "site", "https://x/blob/main/docs/a4.md"⟩]⟩

/-- C2: a call above the maximum depth logs the depth warning and returns
with nothing fetched, nothing written and no error; in the six-document
straight chain exactly 5 levels (root + 4) produce output files, the 6th
document is never requested from the remote, one depth warning is logged,
and the overall fetch succeeds. -/
theorem C2_theorem :
    (∀ (job : FetchJob) (remote out : String) (level : Nat) (st : FetchState),
        level > 4 →
        fetchAndProcessFile job remote out level st =
          ({ st with warnings := st.warnings ++ [depthWarning job.config] }, none)) ∧
    ((jobFetch c2Job).2 = .ok c2Bundle ∧
      (jobFetch c2Job).1.results.length = 5 ∧
      (jobFetch c2Job).1.fetched =
        ["", "docs/dev.md", "docs/a1.md", "docs/a2.md", "docs/a3.md", "docs/a4.md"] ∧
      (jobFetch c2Job).1.warnings = [depthWarning c2Job.config]) := by
  refine ⟨?_, ?_⟩
  · intro job remote out level st hlev
    unfold fetchAndProcessFile
    rw [dif_pos hlev]
  · refine ⟨?_, ?_, ?_, ?_⟩ <;>
    simp [jobFetch, initState, fetchTestFileGo, c2Job, c2Repo, c2Bundle, c2Link,
      fetchAndProcessFile, fetchChildren, fetchFile, fetchFileAt, locateFile,
      repoGetContents, optTruthy, pyStripChar, urljoin, osPathJoin, osDirname,
      pyStartsWith, pyEndsWith, pyLower, editUrl, processFile, renderDocument,
      renderDocTokens, renderToken, renderTokens, collectLink, localGenLink,
      pyReplaceChar, replaceChar, editDocs, editDocsCommon, firstH1Insert, mdts,
      List.isPrefixOf, List.isSuffixOf, List.find?, List.findIdx?]

/-- Witness for C2_theorem: the depth guard at level 5. -/
theorem C2_witness :
    fetchAndProcessFile c2Job "a5.md" "fn/a5.md" 5 (initState c2Job) =
      ({ initState c2Job with
          warnings := (initState c2Job).warnings ++ [depthWarning c2Job.config] }, none) :=
  C2_theorem.1 c2Job "a5.md" "fn/a5.md" 5 (initState c2Job) (by omega)

/-! ## Claim C3 — failure propagation -/

/-- The C3 parent document: links to a missing document, then to `b.md`. -/
def c3DocDev : List MdToken :=
  [.paragraph (mdts [.link "missing.md" (mdts [.rawText "m"]),
    .link "b.md" (mdts [.rawText "b"])])]

/-- The C3 repository: `docs/missing.md` does not exist. -/
def c3Repo : Repo :=
  { htmlUrl := "https://x", defaultBranch := "main",
    contents := [("docs/dev.md", ⟨"docs/dev.md", "", c3DocDev⟩),
      ("docs/b.md", ⟨"docs/b.md", "", [.paragraph (mdts [.rawText "B"])]⟩)],
    rootListing := [] }

/-- The C3 fetch job. -/
def c3Job : FetchJob :=
  { category := "dev", repo := c3Repo, meta := [],
    config := ⟨"fn", some "docs"⟩, out_dir := "site" }

/-- The bundle produced by the C3 job: parent and sibling survive. -/
def c3Bundle : DocsBundle :=
  ⟨⟨"dev_eval_function_docs/fn.md", "site", "https://x/blob/main/docs/dev.md"⟩,
   [⟨"dev_eval_function_docs/fn/b.md", "site", "https://x/blob/main/docs/b.md"⟩]⟩

/-- C3 counterexample: the parent's written document leaves the failed link
pointing at the REWRITTEN local target `fn/missing.md`, not at the original
unresolved target `missing.md` — the Link Collector rewrites every relative
target before the children are fetched, and a child failure does not undo
the rewrite. -/
theorem C3_counterexample :
    writtenLinkTargets (jobFetch c3Job).1 = [["fn/missing.md", "fn/b.md"], []] ∧
    "missing.md" ∉ ["fn/missing.md", "fn/b.md"] ∧
    (jobFetch c3Job).2 = .ok c3Bundle := by
  refine ⟨?_, by decide, ?_⟩ <;>
  simp [jobFetch, initState, fetchTestFileGo, c3Job, c3Repo, c3Bundle, c3DocDev,
    fetchAndProcessFile, fetchChildren, fetchFile, fetchFileAt, locateFile,
    repoGetContents, optTruthy, pyStripChar, urljoin, osPathJoin, osDirname,
    pyStartsWith, pyEndsWith, pyLower, editUrl, processFile, renderDocument,
    renderDocTokens, renderToken, renderTokens, collectLink, localGenLink,
    pyReplaceChar, replaceChar, editDocs, editDocsCommon, firstH1Insert, mdts,
    writtenLinkTargets, linkTargetsDoc, linkTargetsToken, linkTargetsTokens,
    suppWarning, pyErrStr, List.isPrefixOf, List.isSuffixOf, List.find?, List.findIdx?]

/-- C3 (amended): a failure while fetching the root document propagates to
the caller — the whole fetch job fails and returns no bundle; a failure in
a recursive child is caught, a warning is logged, and the loop continues
with the remaining siblings (parent and sibling outputs are produced); the
failed link in the parent's written document points at the rewritten local
target, which stays unresolved. -/
theorem C3_amended :
    (∀ (job : FetchJob) (st2 : FetchState) (e : PyErr),
        fetchAndProcessFile job (job.category ++ ".md") (job.config.name ++ ".md") 0
            (initState job) = (st2, some e) →
        jobFetch job = (st2, .error e)) ∧
    (∀ (job : FetchJob) (rp op : String) (rest : List (String × String)) (level : Nat)
        (st st1 : FetchState) (e : PyErr),
        fetchAndProcessFile job rp op level st = (st1, some e) →
        fetchChildren job ((rp, op) :: rest) level st =
          fetchChildren job rest level
            { st1 with warnings := st1.warnings ++ [suppWarning job.config rp e] }) ∧
    ((jobFetch c3Job).2 = .ok c3Bundle ∧
      (jobFetch c3Job).1.results.length = 2 ∧
      (jobFetch c3Job).1.warnings =
        [suppWarning c3Job.config "missing.md" (.exc "404 not found: docs/missing.md")] ∧
      writtenLinkTargets (jobFetch c3Job).1 = [["fn/missing.md", "fn/b.md"], []]) := by
  refine ⟨?_, ?_, ?_⟩
  · intro job st2 e h
    unfold jobFetch
    simp only [h]
  · intro job rp op rest level st st1 e h
    conv_lhs => rw [fetchChildren.eq_def]
    simp only [h]
  · refine ⟨?_, ?_, ?_, ?_⟩ <;>
    simp [jobFetch, initState, fetchTestFileGo, c3Job, c3Repo, c3Bundle, c3DocDev,
      fetchAndProcessFile, fetchChildren, fetchFile, fetchFileAt, locateFile,
      repoGetContents, optTruthy, pyStripChar, urljoin, osPathJoin, osDirname,
      pyStartsWith, pyEndsWith, pyLower, editUrl, processFile, renderDocument,
      renderDocTokens, renderToken, renderTokens, collectLink, localGenLink,
      pyReplaceChar, replaceChar, editDocs, editDocsCommon, firstH1Insert, mdts,
      writtenLinkTargets, linkTargetsDoc, linkTargetsToken, linkTargetsTokens,
      suppWarning, pyErrStr, List.isPrefixOf, List.isSuffixOf, List.find?, List.findIdx?]

/-- A repository with no root document at all (C3 witness input). -/
def c3RootRepo : Repo :=
  { htmlUrl := "https://x", defaultBranch := "main", contents := [], rootListing := [] }

/-- A fetch job whose root document is missing. -/
def c3RootJob : FetchJob :=
  { category := "dev", repo := c3RootRepo, meta := [],
    config := ⟨"fn", some "docs"⟩, out_dir := "site" }

/-- The state after the failed root fetch of `c3RootJob`. -/
def c3RootSt : FetchState :=
  { visited := [], results := [], remoteDocsDir := some "docs", testFile := none,
    written := [], warnings := [], fetched := ["", "docs/dev.md"] }

/-- Witness for C3_amended: the root failure propagates out of `fetch()`,
and a child failure is converted into a logged warning while the loop
continues. -/
theorem C3_witness :
    jobFetch c3RootJob = (c3RootSt, .error (.exc "404 not found: docs/dev.md")) ∧
    fetchChildren c3Job [("missing.md", "fn/missing.md")] 1 c1WitSt1 =
      fetchChildren c3Job [] 1
        { c1WitSt1 with
            fetched := c1WitSt1.fetched ++ ["docs/missing.md"],
            warnings := c1WitSt1.warnings ++
              [suppWarning c3Job.config "missing.md"
                (.exc "404 not found: docs/missing.md")] } := by
  constructor
  · exact C3_amended.1 c3RootJob c3RootSt (.exc "404 not found: docs/dev.md")
      (by simp [fetchAndProcessFile, initState, fetchTestFileGo, c3RootJob, c3RootRepo,
        c3RootSt, fetchFile, fetchFileAt, locateFile, repoGetContents, optTruthy,
        pyStripChar, urljoin, pyStartsWith, List.isPrefixOf, List.find?])
  · exact C3_amended.2.1 c3Job "missing.md" "fn/missing.md" [] 1 c1WitSt1
      { c1WitSt1 with fetched := c1WitSt1.fetched ++ ["docs/missing.md"] }
      (.exc "404 not found: docs/missing.md")
      (by simp [fetchAndProcessFile, c3Job, c3Repo, c1WitSt1, c1WitSt, fetchFile,
        fetchFileAt, locateFile, repoGetContents, optTruthy, pyStripChar, urljoin,
        pyStartsWith, List.isPrefixOf, List.find?])

end EvalDocs
